import Mathlib

/-!
Verification of the LR hatch-coaming decision engine.

Shallow embedding of the repository's two parallel implementations:
* `LRHC` — `lr-hatch-coaming-measures/lr_hatch_coaming/` (models.py,
  rule_tables.py, decision_engine.py, measure_applicator.py, pipeline.py)
* `Svc` — `services/engine/decision_engine.py` (the richer implementation)

Python numeric values (int / float) are modelled as `Int` / `Rat`; the
sentinel string "미지정" on a numeric or enumerated field is modelled as
`Option.none`.  String-typed fields that hold the sentinel keep it as the
literal string, exactly as the code compares it.  All arithmetic in the
sources is max / comparison, which is exact on `Rat`.
-/

/-- A single-quote character, built by code point to keep source text plain. -/
def sqch : String := (Char.ofNat 39).toString

/-- Python `repr`/f-string rendering of a float whose value is an exact
decimal (all numeric literals in the sources are such); integral values
render with a trailing ".0" as CPython does. -/
def pyFloatStr (q : ℚ) : String :=
  if q.den = 1 then toString q.num ++ ".0"
  else
    match (List.range 30).find? (fun k => q.den ∣ 10 ^ (k + 1)) with
    | some kk =>
      let k := kk + 1
      let scaled := q.num.natAbs * 10 ^ k / q.den
      let whole := scaled / 10 ^ k
      let frac := scaled % 10 ^ k
      let fs := toString frac
      let pad := String.mk (List.replicate (k - fs.length) '0')
      (if q.num < 0 then "-" else "") ++ toString whole ++ "." ++ pad ++ fs
    | none => toString q

/-- Python f-string rendering of an optional float field whose sentinel is
the string "미지정". -/
def pyOptFloatStr : Option ℚ → String
  | none => "미지정"
  | some q => pyFloatStr q

/-- Python f-string rendering of an optional int field whose sentinel is
the string "미지정". -/
def pyOptIntStr : Option ℤ → String
  | none => "미지정"
  | some n => toString n

namespace LRHC

/-! ## models.py -/

/-- Source `UNSPECIFIED` sentinel for string-typed fields. -/
def UNSPECIFIED : String := "미지정"

inductive MemberRole where
  | upper_deck_plate
  | hatch_coaming_side_plate
  | hatch_coaming_top_plate
  | attached_longitudinal
  | other
  | unknown
deriving DecidableEq, Repr

inductive JointType where
  | block_to_block_butt
  | coaming_to_deck_connection
  | attachment_weld
  | other
deriving DecidableEq, Repr

inductive Zone where
  | cargo_hold_region
  | outside_cargo_hold
  | unspecified
deriving DecidableEq, Repr

inductive WeldProcess where
  | FCAW | GMAW | EGW | SAW | SMAW | unspecified
deriving DecidableEq, Repr

inductive Measure3Option where
  | block_shift
  | crack_arrest_hole
  | crack_arrest_insert
  | enhanced_NDE
  | unspecified
deriving DecidableEq, Repr

/-- Python `.value` string of a `Measure3Option`. -/
def Measure3Option.pyValue : Measure3Option → String
  | .block_shift => "block_shift"
  | .crack_arrest_hole => "crack_arrest_hole"
  | .crack_arrest_insert => "crack_arrest_insert"
  | .enhanced_NDE => "enhanced_NDE"
  | .unspecified => "미지정"

inductive EnhancedNDEMethod where
  | UT | PAUT | TOFD | RT | unspecified
deriving DecidableEq, Repr

def EnhancedNDEMethod.pyValue : EnhancedNDEMethod → String
  | .UT => "UT"
  | .PAUT => "PAUT"
  | .TOFD => "TOFD"
  | .RT => "RT"
  | .unspecified => "미지정"

inductive MeasureStatus where
  | required
  | not_required
  | conditional
  | see_note_2
  | pending_manual_choice
deriving DecidableEq, Repr

/-- Python `.value` string of a `MeasureStatus`. -/
def MeasureStatus.pyValue : MeasureStatus → String
  | .required => "Required"
  | .not_required => "Not required"
  | .conditional => "Conditional"
  | .see_note_2 => "See Note 2"
  | .pending_manual_choice => "pending_manual_choice"

inductive MeasureTarget where
  | member
  | joint
deriving DecidableEq, Repr

structure MemberInput where
  member_id : String
  member_role : MemberRole
  yield_strength_nmm2 : Option ℤ := none
  grade : String := UNSPECIFIED
  thickness_mm_as_built : Option ℚ := none
  zone : Zone := Zone.unspecified
  geometry_ref : String := UNSPECIFIED
deriving DecidableEq, Repr

structure JointInput where
  joint_id : String
  joint_type : JointType
  connected_members : List String
  zone : Zone := Zone.unspecified
  weld_process : WeldProcess := WeldProcess.unspecified
  notes : String := UNSPECIFIED
deriving DecidableEq, Repr

structure Measure3Parameters where
  block_shift_offset_mm : Option ℚ := none
  hole_diameter_mm : Option ℚ := none
  insert_type : String := UNSPECIFIED
  enhanced_nde_method : EnhancedNDEMethod := EnhancedNDEMethod.unspecified
  enhanced_nde_acceptance_criteria_ref : String := UNSPECIFIED
deriving DecidableEq, Repr

structure Measure3Choice where
  option : Measure3Option := Measure3Option.unspecified
  parameters : Measure3Parameters := {}
deriving DecidableEq, Repr

structure ProjectMeta where
  project_id : String
  vessel_name : String := UNSPECIFIED
deriving DecidableEq, Repr

structure PipelineInput where
  project_meta : ProjectMeta
  members : List MemberInput := []
  joints : List JointInput := []
  measure3_choice : Measure3Choice := {}
deriving DecidableEq, Repr

structure TableCell where
  status : MeasureStatus
  raw_text : String := ""
deriving DecidableEq, Repr

structure Table821Row where
  yield_strength_nmm2 : ℤ
  thickness_range_mm : String
  t_min_mm : ℚ
  t_max_mm : ℚ
  measure_1 : TableCell
  measure_2 : TableCell
  measure_3_and_4 : TableCell
  measure_5 : TableCell
deriving DecidableEq, Repr

structure Table822Entry where
  member_category : String
  yield_strength_nmm2 : ℤ
  thickness_range_mm : String
  t_min_mm : ℚ
  t_max_mm : ℚ
  bca_type : String
deriving DecidableEq, Repr

structure ManualReviewFlag where
  flag_id : String
  category : String
  message : String
  related_ids : List String := []
  evidence_ref : String := ""
deriving DecidableEq, Repr

/-- Value of an entry of a `details` dict (heterogeneous `Dict[str, Any]`). -/
inductive DVal where
  | s (v : String)
  | num (v : Option ℚ)
  | yv (v : Option ℤ)
  | b (v : Bool)
  | ids (v : List String)
deriving DecidableEq, Repr

structure MeasureApplication where
  measure_id : ℤ
  measure_name : String
  status : MeasureStatus
  target_type : MeasureTarget
  target_id : String
  details : List (String × DVal) := []
  evidence_snippet_key : String := ""
  rule_ref : String := ""
deriving DecidableEq, Repr

structure ControlParameters where
  t_side : Option ℚ := none
  t_top : Option ℚ := none
  t_control : Option ℚ := none
  y_side : Option ℤ := none
  y_top : Option ℤ := none
  y_control : Option ℤ := none
deriving DecidableEq, Repr

/-! ## rule_tables.py — lookup functions -/

/-- Source `lookup_table_821`: first row with matching yield whose thickness range
contains `t` (`t_min` exclusive, `t_max` inclusive), a row with `t_min = 0`
also matching whenever `t ≤ t_max`. -/
def lookup_table_821 : List Table821Row → ℤ → ℚ → Option Table821Row
  | [], _, _ => none
  | row :: rest, y, t =>
    if row.yield_strength_nmm2 = y then
      if row.t_min_mm < t ∧ t ≤ row.t_max_mm then some row
      else if row.t_min_mm = 0 ∧ t ≤ row.t_max_mm then some row
      else lookup_table_821 rest y t
    else lookup_table_821 rest y t

/-- Source `lookup_table_822`. -/
def lookup_table_822 : List Table822Entry → String → ℤ → ℚ → Option Table822Entry
  | [], _, _, _ => none
  | e :: rest, cat, y, t =>
    if e.member_category = cat then
      if e.yield_strength_nmm2 = y then
        if e.t_min_mm < t ∧ t ≤ e.t_max_mm then some e
        else if e.t_min_mm = 0 ∧ t ≤ e.t_max_mm then some e
        else lookup_table_822 rest cat y t
      else lookup_table_822 rest cat y t
    else lookup_table_822 rest cat y t

/-! ## decision_engine.py -/

/-- Source `_is_specified_number` on an optional numeric field. -/
def is_specified_number {α : Type} : Option α → Bool
  | some _ => true
  | none => false

/-- Source `derive_control_parameters` (decision_engine.py lines 33-106). -/
def derive_control_parameters (members : List MemberInput) :
    ControlParameters × List ManualReviewFlag :=
  let side_members := members.filter (fun m => m.member_role = MemberRole.hatch_coaming_side_plate)
  let top_members := members.filter (fun m => m.member_role = MemberRole.hatch_coaming_top_plate)
  let t_side : Option ℚ := side_members.head?.bind (·.thickness_mm_as_built)
  let t_top : Option ℚ := top_members.head?.bind (·.thickness_mm_as_built)
  let y_side : Option ℤ := side_members.head?.bind (·.yield_strength_nmm2)
  let y_top : Option ℤ := top_members.head?.bind (·.yield_strength_nmm2)
  let (t_control, t_flags) : Option ℚ × List ManualReviewFlag :=
    match t_side, t_top with
    | some s, some t => (some (max s t), [])
    | some s, none =>
      (some s, [{ flag_id := "t_control_partial", category := "control_parameter",
                  message := "t_top is 미지정; t_control derived from t_side only.",
                  related_ids := side_members.map (·.member_id) }])
    | none, some t =>
      (some t, [{ flag_id := "t_control_partial", category := "control_parameter",
                  message := "t_side is 미지정; t_control derived from t_top only.",
                  related_ids := top_members.map (·.member_id) }])
    | none, none => (none, [])  -- both 미지정 → t_control stays 미지정, no flag
  let (y_control, y_flags) : Option ℤ × List ManualReviewFlag :=
    match y_side, y_top with
    | some s, some t =>
      (some (max s t),
       if s ≠ t then
         [{ flag_id := "yield_mismatch", category := "control_parameter",
            message := "Side yield (" ++ toString s ++ ") != top yield (" ++ toString t ++
              "). Using max (" ++ toString (max s t) ++ ") but manual review recommended.",
            related_ids := (side_members ++ top_members).map (·.member_id) }]
       else [])
    | some s, none =>
      (some s, [{ flag_id := "y_control_partial", category := "control_parameter",
                  message := "y_top is 미지정; y_control derived from y_side only.",
                  related_ids := side_members.map (·.member_id) }])
    | none, some t =>
      (some t, [{ flag_id := "y_control_partial", category := "control_parameter",
                  message := "y_side is 미지정; y_control derived from y_top only.",
                  related_ids := top_members.map (·.member_id) }])
    | none, none => (none, [])
  ({ t_side := t_side, t_top := t_top, t_control := t_control,
     y_side := y_side, y_top := y_top, y_control := y_control },
   t_flags ++ y_flags)

/-- The `{measure_id: status}` dict of `determine_required_measures`. -/
structure RequiredMeasures where
  r1 : MeasureStatus := MeasureStatus.not_required
  r2 : MeasureStatus := MeasureStatus.not_required
  r3 : MeasureStatus := MeasureStatus.not_required
  r4 : MeasureStatus := MeasureStatus.not_required
  r5 : MeasureStatus := MeasureStatus.not_required
deriving DecidableEq, Repr

def RequiredMeasures.allNotRequired : RequiredMeasures := {}

def RequiredMeasures.allRequired : RequiredMeasures :=
  { r1 := .required, r2 := .required, r3 := .required, r4 := .required, r5 := .required }

/-- Summary stored under `lookup_info["matched_row"]`. -/
structure MatchedRowInfo where
  yieldVal : ℤ
  range : String
  m1 : MeasureStatus
  m2 : MeasureStatus
  m3_4 : MeasureStatus
  m5 : MeasureStatus
deriving DecidableEq, Repr

/-- The `lookup_info` dict of `determine_required_measures`; absent keys are
`none`. -/
structure LookupInfo where
  matched_row : Option MatchedRowInfo := none
  special : Option String := none
  note_2_applied : Option Bool := none
  note_2_reason : Option String := none
deriving DecidableEq, Repr

/-- Build the result once a row has been matched (decision_engine.py lines
188-227): expand the bundled 3+4 cell, copy measure 1/5, apply Note 2. -/
def buildRowResult (row : Table821Row) (measure3_choice : Measure3Choice)
    (fallbackFlags : List ManualReviewFlag) :
    RequiredMeasures × LookupInfo × List ManualReviewFlag :=
  let m34 :=
    if row.measure_3_and_4.status = MeasureStatus.required then
      (MeasureStatus.required, MeasureStatus.required)
    else if row.measure_3_and_4.status = MeasureStatus.not_required then
      (MeasureStatus.not_required, MeasureStatus.not_required)
    else
      (MeasureStatus.not_required, MeasureStatus.not_required)  -- dict defaults untouched
  let (r2, note2applied, note2reason) :
      MeasureStatus × Option Bool × Option String :=
    if row.measure_2.status = MeasureStatus.see_note_2 then
      if measure3_choice.option = Measure3Option.enhanced_NDE then
        (MeasureStatus.conditional, some true, none)
      else
        (MeasureStatus.not_required, some false,
         some ("Measure 3 option is " ++ sqch ++ measure3_choice.option.pyValue ++ sqch ++
           ", not " ++ sqch ++ "enhanced_NDE" ++ sqch ++ ". Measure 2 not applicable per Note 2."))
    else (row.measure_2.status, none, none)
  ({ r1 := row.measure_1.status, r2 := r2, r3 := m34.1, r4 := m34.2,
     r5 := row.measure_5.status },
   { matched_row := some { yieldVal := row.yield_strength_nmm2,
                           range := row.thickness_range_mm,
                           m1 := row.measure_1.status, m2 := row.measure_2.status,
                           m3_4 := row.measure_3_and_4.status, m5 := row.measure_5.status },
     note_2_applied := note2applied, note_2_reason := note2reason },
   fallbackFlags)

/-- Manual-review flag for the yield-fallback retry. -/
def yieldFallbackFlag (y : ℤ) (t : ℚ) (tryYield : ℤ) : ManualReviewFlag :=
  { flag_id := "yield_fallback", category := "decision",
    message := "No exact row for yield=" ++ toString y ++ ", thickness=" ++ pyFloatStr t ++
      ". Fell back to yield=" ++ toString tryYield ++ "." }

/-- Source `determine_required_measures` (decision_engine.py lines 109-227). -/
def determine_required_measures (table_821 : List Table821Row)
    (y_control : Option ℤ) (t_control : Option ℚ) (measure3_choice : Measure3Choice) :
    RequiredMeasures × LookupInfo × List ManualReviewFlag :=
  match y_control, t_control with
  | some y, some t =>
    if t > 100 then
      (RequiredMeasures.allRequired,
       { special := some "thickness > 100mm → all measures Required" },
       [{ flag_id := "thickness_gt100", category := "special_consideration",
          message := "Control thickness " ++ pyFloatStr t ++ "mm > 100mm. " ++
            "Special consideration required per LR rules. " ++
            "All measures assumed Required pending manual review." }])
    else
      match lookup_table_821 table_821 y t with
      | some row => buildRowResult row measure3_choice []
      | none =>
        -- nearest-yield fallback loop over [355, 390, 460]
        match lookup_table_821 table_821 355 t with
        | some row => buildRowResult row measure3_choice [yieldFallbackFlag y t 355]
        | none =>
          match lookup_table_821 table_821 390 t with
          | some row => buildRowResult row measure3_choice [yieldFallbackFlag y t 390]
          | none =>
            match lookup_table_821 table_821 460 t with
            | some row => buildRowResult row measure3_choice [yieldFallbackFlag y t 460]
            | none =>
              (RequiredMeasures.allNotRequired, {},
               [{ flag_id := "no_table_row", category := "decision",
                  message := "No matching row in Table 8.2.1 for yield=" ++ toString y ++
                    ", t=" ++ pyFloatStr t ++ "." }])
  | y, t =>
    (RequiredMeasures.allNotRequired, {},
     [{ flag_id := "control_unspecified", category := "decision",
        message := "Cannot perform Table 8.2.1 lookup: y_control=" ++ pyOptIntStr y ++
          ", t_control=" ++ pyOptFloatStr t ++
          ". All measures left as Not required (manual review needed)." }])

/-- The row actually used by `determine_required_measures` (direct lookup,
then the `[355, 390, 460]` fallback loop). -/
def effectiveRow (table_821 : List Table821Row) (y : ℤ) (t : ℚ) : Option Table821Row :=
  match lookup_table_821 table_821 y t with
  | some row => some row
  | none =>
    match lookup_table_821 table_821 355 t with
    | some row => some row
    | none =>
      match lookup_table_821 table_821 390 t with
      | some row => some row
      | none => lookup_table_821 table_821 460 t

/-- Grade-validation flags appended by `run_decision` (lines 252-267). -/
def gradeFlags (members : List MemberInput) : List ManualReviewFlag :=
  members.filterMap (fun m =>
    if m.yield_strength_nmm2 = some 460 ∧ m.grade ≠ UNSPECIFIED ∧
        ¬ (m.grade.toUpper.startsWith "EH") then
      some { flag_id := "grade_check_" ++ m.member_id, category := "grade_validation",
             message := "Member " ++ m.member_id ++ ": yield=460 but grade=" ++ sqch ++ m.grade ++
               sqch ++ " does not start with " ++ sqch ++ "EH" ++ sqch ++ ". Verify grade designation.",
             related_ids := [m.member_id] }
    else none)

/-- Source `run_decision` (decision_engine.py lines 230-269). -/
def run_decision (pipeline_input : PipelineInput) (table_821 : List Table821Row) :
    ControlParameters × RequiredMeasures × LookupInfo × List ManualReviewFlag :=
  let (cp, cp_flags) := derive_control_parameters pipeline_input.members
  let (required, lookup_info, decision_flags) :=
    determine_required_measures table_821 cp.y_control cp.t_control
      pipeline_input.measure3_choice
  (cp, required, lookup_info,
   cp_flags ++ decision_flags ++ gradeFlags pipeline_input.members)

/-! ## measure_applicator.py -/

def WeldProcess.pyValue : WeldProcess → String
  | .FCAW => "FCAW"
  | .GMAW => "GMAW"
  | .EGW => "EGW"
  | .SAW => "SAW"
  | .SMAW => "SMAW"
  | .unspecified => "미지정"

/-- Source `_UPPER_FLANGE_ROLES`. -/
def UPPER_FLANGE_ROLES : List MemberRole :=
  [MemberRole.upper_deck_plate, MemberRole.hatch_coaming_side_plate,
   MemberRole.hatch_coaming_top_plate, MemberRole.attached_longitudinal]

/-- Source `member_map = {m.member_id: m for m in members}` (later entries win),
with lookup defaulting to `MemberInput(member_id="?", member_role=unknown)`
as in `member_map.get(mid, ...)`. -/
def memberMapGet (members : List MemberInput) (mid : String) : MemberInput :=
  (members.reverse.find? (fun m => m.member_id = mid)).getD
    { member_id := "?", member_role := MemberRole.unknown }

/-- Source `mid in member_map` lookup used by the Measure-3 sub-options
(missing ids simply skipped). -/
def memberMapFind (members : List MemberInput) (mid : String) : Option MemberInput :=
  members.reverse.find? (fun m => m.member_id = mid)

/-- Source `all(member_map.get(mid, default_unknown).member_role in _UPPER_FLANGE_ROLES ...)`. -/
def connectedUpperAll (members : List MemberInput) (j : JointInput) : Bool :=
  j.connected_members.all (fun mid => (memberMapGet members mid).member_role ∈ UPPER_FLANGE_ROLES)

/-- Source `roles = {member_map[mid].member_role for mid in j.connected_members if mid in member_map}`. -/
def jointRoles (members : List MemberInput) (j : JointInput) : List MemberRole :=
  (j.connected_members.filterMap (memberMapFind members)).map (·.member_role)

/-- A pending-choice dict appended by `_apply_measure_3` when the option
is 미지정. -/
structure PendingChoice where
  measure_id : ℤ
  status : String
  message : String
  allowed_options : List String
  required_params_by_option : List (String × List String)
deriving DecidableEq, Repr

def measure3PendingChoice : PendingChoice :=
  { measure_id := 3, status := "pending_manual_choice",
    message := "Measure 3 is required but sub-option is 미지정. " ++
      "Please select one of: block_shift, crack_arrest_hole, " ++
      "crack_arrest_insert, enhanced_NDE.",
    allowed_options := ["block_shift", "crack_arrest_hole",
      "crack_arrest_insert", "enhanced_NDE"],
    required_params_by_option :=
      [("block_shift", ["block_shift_offset_mm"]),
       ("crack_arrest_hole", ["hole_diameter_mm"]),
       ("crack_arrest_insert", ["insert_type"]),
       ("enhanced_NDE", ["enhanced_nde_method", "enhanced_nde_acceptance_criteria_ref"])] }

/-- Source `_apply_block_shift`. -/
def apply_block_shift (choice : Measure3Choice) (joints : List JointInput)
    (members : List MemberInput) :
    List MeasureApplication × List ManualReviewFlag :=
  let offset := choice.parameters.block_shift_offset_mm
  let offset_ok := match offset with
    | some v => decide (v ≥ 300)
    | none => false
  let inScope := joints.filter (fun j =>
    j.joint_type = JointType.block_to_block_butt ∧
    (jointRoles members j).any (fun r =>
      r = MemberRole.hatch_coaming_side_plate ∨ r = MemberRole.upper_deck_plate))
  (inScope.map (fun j =>
     { measure_id := 3, measure_name := "Block shift requirement",
       status := MeasureStatus.required, target_type := MeasureTarget.joint,
       target_id := j.joint_id,
       details :=
         [("description", DVal.s ("Block shift: coaming side butt weld vs upper deck butt weld " ++
            "offset must be ≥ 300mm.")),
          ("block_shift_offset_mm", DVal.num offset),
          ("offset_meets_requirement", DVal.b offset_ok)],
       rule_ref := "Measure 3 – block shift ≥ 300mm" }),
   inScope.filterMap (fun j =>
     if offset.isSome ∧ ¬ offset_ok then
       some { flag_id := "block_shift_short_" ++ j.joint_id,
              category := "measure_3_block_shift",
              message := "Joint " ++ j.joint_id ++ ": block shift offset " ++
                pyOptFloatStr offset ++ "mm < 300mm.",
              related_ids := [j.joint_id] }
     else none))

/-- Source `_apply_crack_arrest_hole`. -/
def apply_crack_arrest_hole (choice : Measure3Choice) (joints : List JointInput)
    (members : List MemberInput) : List MeasureApplication :=
  let hole_dia := choice.parameters.hole_diameter_mm
  (joints.filter (fun j =>
    j.joint_type = JointType.block_to_block_butt ∧
    (jointRoles members j).any (fun r =>
      r = MemberRole.hatch_coaming_side_plate ∨ r = MemberRole.upper_deck_plate))).map
  (fun j =>
    { measure_id := 3, measure_name := "Crack arrest hole",
      status := MeasureStatus.required, target_type := MeasureTarget.joint,
      target_id := j.joint_id,
      details :=
        [("description", DVal.s ("Crack arrest hole at corner/intersection. " ++
           "Fatigue strength special assessment required.")),
         ("hole_diameter_mm", DVal.num hole_dia),
         ("fatigue_assessment_required", DVal.b true)],
      rule_ref := "Measure 3 – crack arrest hole" })

/-- Source `_apply_crack_arrest_insert`. -/
def apply_crack_arrest_insert (choice : Measure3Choice) (joints : List JointInput)
    (members : List MemberInput) : List MeasureApplication :=
  (joints.filter (fun j =>
    j.joint_type = JointType.block_to_block_butt ∧
    (jointRoles members j).any (fun r =>
      r = MemberRole.hatch_coaming_side_plate ∨ r = MemberRole.upper_deck_plate))).map
  (fun j =>
    { measure_id := 3, measure_name := "Crack arrest insert plate/weld metal",
      status := MeasureStatus.required, target_type := MeasureTarget.joint,
      target_id := j.joint_id,
      details :=
        [("description", DVal.s ("High crack-arrest performance insert plate or " ++
           "weld metal insert required.")),
         ("insert_type", DVal.s choice.parameters.insert_type)],
      rule_ref := "Measure 3 – crack arrest insert" })

/-- Source `_apply_enhanced_nde`. -/
def apply_enhanced_nde (choice : Measure3Choice) (joints : List JointInput)
    (members : List MemberInput) :
    List MeasureApplication × List ManualReviewFlag :=
  let butts := joints.filter (fun j => j.joint_type = JointType.block_to_block_butt)
  ((butts.filter (fun j =>
     (jointRoles members j).any (fun r =>
       r = MemberRole.hatch_coaming_side_plate ∨ r = MemberRole.upper_deck_plate ∨
       r = MemberRole.attached_longitudinal))).map
   (fun j =>
     { measure_id := 3, measure_name := "Enhanced NDE with stricter acceptance",
       status := MeasureStatus.required, target_type := MeasureTarget.joint,
       target_id := j.joint_id,
       details :=
         [("description", DVal.s ("ShipRight-based stricter acceptance criteria. " ++
            "CTOD ≥ 0.18mm required. EGW prohibited.")),
          ("nde_method", DVal.s choice.parameters.enhanced_nde_method.pyValue),
          ("acceptance_criteria_ref", DVal.s choice.parameters.enhanced_nde_acceptance_criteria_ref),
          ("ctod_min_mm", DVal.num (some (mkRat 18 100))),
          ("egw_prohibited", DVal.b true),
          ("weld_process", DVal.s j.weld_process.pyValue)],
       rule_ref := "Measure 3 – enhanced NDE (ShipRight)" }),
   butts.filterMap (fun j =>
     if j.weld_process = WeldProcess.EGW then
       some { flag_id := "egw_prohibited_" ++ j.joint_id,
              category := "measure_3_enhanced_nde",
              message := "Joint " ++ j.joint_id ++ ": EGW weld process is prohibited " ++
                "when Measure 3 is achieved via enhanced NDE.",
              related_ids := [j.joint_id] }
     else none))

/-- Source `_apply_measure_3`: BCA part (a) plus the sub-option dispatch (b). -/
def apply_measure_3 (measure3_choice : Measure3Choice) (members : List MemberInput)
    (joints : List JointInput) (table_822 : List Table822Entry) :
    List MeasureApplication × List ManualReviewFlag × List PendingChoice :=
  let bcaApps :=
    (members.filter (fun m => m.member_role = MemberRole.hatch_coaming_side_plate)).map
    (fun m =>
      let bca_entry : Option Table822Entry :=
        match m.yield_strength_nmm2, m.thickness_mm_as_built with
        | some y, some t => lookup_table_822 table_822 "hatch_coaming_side" y t
        | _, _ => none
      let bca_type := (bca_entry.map (·.bca_type)).getD UNSPECIFIED
      { measure_id := 3, measure_name := "BCA steel for hatch coaming side plate",
        status := MeasureStatus.required, target_type := MeasureTarget.member,
        target_id := m.member_id,
        details :=
          [("description", DVal.s ("Hatch coaming side plate requires BCA " ++
             "(Brittle Crack Arrest) steel when Measure 3 is required.")),
           ("bca_type", DVal.s bca_type),
           ("yield", DVal.yv m.yield_strength_nmm2),
           ("thickness", DVal.num m.thickness_mm_as_built)],
        rule_ref := "Measure 3 – BCA requirement + Table 8.2.2" })
  match measure3_choice.option with
  | Measure3Option.unspecified => (bcaApps, [], [measure3PendingChoice])
  | Measure3Option.block_shift =>
    let (apps, flags) := apply_block_shift measure3_choice joints members
    (bcaApps ++ apps, flags, [])
  | Measure3Option.crack_arrest_hole =>
    (bcaApps ++ apply_crack_arrest_hole measure3_choice joints members, [], [])
  | Measure3Option.crack_arrest_insert =>
    (bcaApps ++ apply_crack_arrest_insert measure3_choice joints members, [], [])
  | Measure3Option.enhanced_NDE =>
    let (apps, flags) := apply_enhanced_nde measure3_choice joints members
    (bcaApps ++ apps, flags, [])

/-- BCA-steel application to an upper-deck member for Measures 4 / 5. -/
def upperDeckBcaApp (table_822 : List Table822Entry) (mid : ℤ) (mname : String)
    (descr : String) (ruleRef : String) (m : MemberInput) : MeasureApplication :=
  let bca_entry : Option Table822Entry :=
    match m.yield_strength_nmm2, m.thickness_mm_as_built with
    | some y, some t => lookup_table_822 table_822 "upper_deck" y t
    | _, _ => none
  let bca_type := (bca_entry.map (·.bca_type)).getD UNSPECIFIED
  { measure_id := mid, measure_name := mname,
    status := MeasureStatus.required, target_type := MeasureTarget.member,
    target_id := m.member_id,
    details :=
      [("description", DVal.s descr),
       ("bca_type", DVal.s bca_type),
       ("yield", DVal.yv m.yield_strength_nmm2),
       ("thickness", DVal.num m.thickness_mm_as_built)],
    rule_ref := ruleRef }

/-- Source `apply_measures` (measure_applicator.py lines 45-228). -/
def apply_measures (required_measures : RequiredMeasures) (members : List MemberInput)
    (joints : List JointInput) (measure3_choice : Measure3Choice)
    (table_822 : List Table822Entry) :
    List MeasureApplication × List ManualReviewFlag × List PendingChoice :=
  let m1Apps :=
    if required_measures.r1 = MeasureStatus.required then
      (joints.filter (fun j =>
        j.zone = Zone.cargo_hold_region ∧
        j.joint_type = JointType.block_to_block_butt ∧
        connectedUpperAll members j)).map
      (fun j =>
        { measure_id := 1, measure_name := "100% UT during construction",
          status := MeasureStatus.required, target_type := MeasureTarget.joint,
          target_id := j.joint_id,
          details :=
            [("description", DVal.s ("100% ultrasonic testing of upper flange " ++
               "longitudinal members block-to-block butt joints " ++
               "during construction.")),
             ("connected_members", DVal.ids j.connected_members)],
          rule_ref := "Table 8.2.1 Measure 1" })
    else []
  let m2Apps :=
    if (required_measures.r2 = MeasureStatus.required ∨
        required_measures.r2 = MeasureStatus.conditional) ∧
       measure3_choice.option = Measure3Option.enhanced_NDE then
      (joints.filter (fun j =>
        j.zone = Zone.cargo_hold_region ∧
        j.joint_type = JointType.block_to_block_butt ∧
        connectedUpperAll members j)).map
      (fun j =>
        { measure_id := 2, measure_name := "Enhanced NDE conditional (Note 2)",
          status := MeasureStatus.conditional, target_type := MeasureTarget.joint,
          target_id := j.joint_id,
          details :=
            [("description", DVal.s ("Conditional measure per Note 2: applicable " ++
               "because Measure 3 is achieved via enhanced NDE.")),
             ("nde_method", DVal.s measure3_choice.parameters.enhanced_nde_method.pyValue)],
          rule_ref := "Table 8.2.1 Note 2" })
    else []
  let (m3Apps, m3Flags, pending) :=
    if required_measures.r3 = MeasureStatus.required then
      apply_measure_3 measure3_choice members joints table_822
    else ([], [], [])
  let m4Apps :=
    if required_measures.r4 = MeasureStatus.required then
      (members.filter (fun m => m.member_role = MemberRole.upper_deck_plate)).map
        (upperDeckBcaApp table_822 4 "BCA steel for upper deck plate"
          ("Upper deck plate requires BCA (Brittle Crack Arrest) steel per Table 8.2.2.")
          "Table 8.2.1 Measure 4 + Table 8.2.2")
    else []
  let m5Apps :=
    if required_measures.r5 = MeasureStatus.required then
      (members.filter (fun m => m.member_role = MemberRole.upper_deck_plate)).map
        (upperDeckBcaApp table_822 5 "BCA steel for upper deck plate (Measure 5)"
          ("Upper deck plate – additional BCA requirement tracked as Measure 5 for traceability.")
          "Table 8.2.1 Measure 5 + Table 8.2.2")
    else []
  let pjpApps :=
    (joints.filter (fun j => j.joint_type = JointType.coaming_to_deck_connection)).map
    (fun j =>
      { measure_id := 0, measure_name := "LR-approved PJP weld required",
        status := MeasureStatus.required, target_type := MeasureTarget.joint,
        target_id := j.joint_id,
        details :=
          [("description", DVal.s ("Coaming-to-deck connection requires LR-approved " ++
             "partial joint penetration (PJP) weld."))],
        rule_ref := "Sec 8 – coaming side to upper deck connection" })
  let thickFlags :=
    members.filterMap (fun m =>
      match m.thickness_mm_as_built with
      | some t =>
        if t > 100 then
          some { flag_id := "thick_gt100_" ++ m.member_id,
                 category := "special_consideration",
                 message := "Member " ++ m.member_id ++ " thickness " ++ pyFloatStr t ++
                   "mm > 100mm. Special consideration required.",
                 related_ids := [m.member_id] }
        else none
      | none => none)
  (m1Apps ++ m2Apps ++ m3Apps ++ m4Apps ++ m5Apps ++ pjpApps,
   m3Flags ++ thickFlags, pending)

/-- Steps 3–4 of `pipeline.run_pipeline`: the decision engine followed by
the cumulative measure applicator; returns the `applications` list of the
`DecisionResult`. The rule tables are inputs (their OCR/merge loading is
I/O outside the core). -/
def pipelineApplications (pipeline_input : PipelineInput)
    (table_821 : List Table821Row) (table_822 : List Table822Entry) :
    List MeasureApplication :=
  let (_, required, _, _) := run_decision pipeline_input table_821
  (apply_measures required pipeline_input.members pipeline_input.joints
    pipeline_input.measure3_choice table_822).1

end LRHC

namespace Svc

/-! ## services/engine/decision_engine.py

The engine module is in `src`; a few of the dataclasses it imports from
`rules_db` are not (the checked-in `rules_db.py` is an older revision that
lacks them), so those record shapes are reconstructed from the constructor
calls and attribute accesses in `decision_engine.py` itself, guided by the
spec's data model (§3). -/

inductive MemberRole where
  | upper_deck_plate
  | hatch_coaming_side_plate
  | hatch_coaming_top_plate
  | attached_longitudinal
  | other
  | unknown
deriving DecidableEq, Repr

inductive Zone where
  | cargo_hold_region
  | outside_cargo_hold
deriving DecidableEq, Repr

inductive JointType where
  | block_to_block_butt
  | coaming_to_deck_connection
  | attachment_weld
  | other
deriving DecidableEq, Repr

inductive WeldProcess where
  | FCAW | GMAW | EGW | SAW | SMAW | unspecified
deriving DecidableEq, Repr

inductive Measure3Option where
  | block_shift
  | crack_arrest_hole
  | crack_arrest_insert
  | enhanced_NDE
  | unspecified
deriving DecidableEq, Repr

/-- Source `TargetType` (modelled from the spec: tagged member/joint target). -/
inductive TargetType where
  | member
  | joint
deriving DecidableEq, Repr

/-- Modelled from the spec: `DecisionStatus` is imported from the missing
revision of `rules_db`; its constructors are the four values the engine
uses (`applied`, `conditional`, `pending_manual_choice`,
`pending_manual_review`). -/
inductive DecisionStatus where
  | applied
  | conditional
  | pending_manual_choice
  | pending_manual_review
deriving DecidableEq, Repr

/-- Cell status of Table 8.2.1 (`MeasureStatus` in the source; `see_note_2`
legal only for measure 2). -/
inductive MeasureStatus where
  | required
  | not_required
  | see_note_2
deriving DecidableEq, Repr

structure MemberInput where
  member_id : String
  member_role : MemberRole
  zone : Option Zone := none
  yield_strength_nmm2 : Option ℤ := none
  grade : String := "미지정"
  thickness_mm_as_built : Option ℚ := none
deriving DecidableEq, Repr

structure JointInput where
  joint_id : String
  joint_type : JointType
  zone : Option Zone := none
  connected_members : List String := []
  weld_process : WeldProcess := WeldProcess.unspecified
  related_joint_ids : List String := []
deriving DecidableEq, Repr

structure Measure3Parameters where
  block_shift_offset_mm : Option ℚ := none
  hole_diameter_mm : Option ℚ := none
  insert_type : String := "미지정"
  enhanced_nde_method : String := "미지정"
  enhanced_nde_acceptance_criteria_ref : String := "미지정"
deriving DecidableEq, Repr

structure Measure3Choice where
  option : Measure3Option := Measure3Option.unspecified
  parameters : Measure3Parameters := {}
deriving DecidableEq, Repr

structure ProjectMeta where
  project_id : String
deriving DecidableEq, Repr

structure ProjectInput where
  project_meta : ProjectMeta
  members : List MemberInput := []
  joints : List JointInput := []
  measure3_choice : Measure3Choice := {}
deriving DecidableEq, Repr

/-- Modelled from the spec: `EvidenceRecord` as constructed in
`_find_clause_evidence` (raw text plus snippet path). -/
structure EvidenceRecord where
  raw_text : String := "미지정"
  snippet_path : String := "미지정"
deriving DecidableEq, Repr

/-- A rule clause of `rules.rule_clauses` (text plus optional evidence). -/
structure RuleClause where
  text : String
  evidence : List EvidenceRecord := []
deriving DecidableEq, Repr

/-- The five per-measure cells of a Table 8.2.1 row (`row.cell`). -/
structure Cells where
  m1 : MeasureStatus
  m2 : MeasureStatus
  m3 : MeasureStatus
  m4 : MeasureStatus
  m5 : MeasureStatus
deriving DecidableEq, Repr

structure Table821Row where
  yield_strength_nmm2 : ℤ
  thickness_range : String
  thickness_min_exclusive : Option ℚ := none
  thickness_max_inclusive : Option ℚ := none
  cell : Cells
deriving DecidableEq, Repr

structure Table822Row where
  structural_member : String
  yield_strength_nmm2 : ℤ
  thickness_min_exclusive : Option ℚ := none
  thickness_max_inclusive : Option ℚ := none
  bca_type : String
deriving DecidableEq, Repr

structure RulesExtraction where
  table_821 : List Table821Row := []
  table_822 : List Table822Row := []
  rule_clauses : List RuleClause := []
  special_consideration_threshold_mm : ℚ := 100
deriving DecidableEq, Repr

structure ManualReviewFlag where
  flag_id : String
  description : String
  target_id : Option String := none
  severity : Option String := none
deriving DecidableEq, Repr

structure AppliedMeasure where
  measure_id : ℤ
  status : DecisionStatus
  target_id : String
  target_type : TargetType
  requirements : List String := []
  condition_expr : String := "미지정"
  rule_ref : String := "미지정"
  evidence : List EvidenceRecord := []
  notes : List String := []
deriving DecidableEq, Repr

structure ControlValues where
  t_control_mm : Option ℚ := none
  y_control_nmm2 : Option ℚ := none
  required_measures_global : List ℤ := []
  table_821_row_used : Option String := none
  manual_review_flags : List ManualReviewFlag := []
deriving DecidableEq, Repr

/-- The mapping configuration of `configs/mapping_rules.json` as consumed
via `mapping.get(key, default)`; the field defaults are the in-code
defaults used when the file is absent (`_load_mapping_rules` → `{}`). -/
structure Mapping where
  upper_flange_long_member_roles : List MemberRole := []
  cargo_hold_region_zones : List Zone := [Zone.cargo_hold_region]
  block_to_block_butt_types : List JointType := [JointType.block_to_block_butt]
  block_shift_min_offset_mm : ℚ := 300
  ctod_min_mm : ℚ := mkRat 18 100
  egw_permitted_with_enhanced_nde : Bool := false
deriving DecidableEq, Repr

/-! ### Helpers -/

/-- Substring test on character lists (Python `needle in haystack`). -/
def charListHasPrefix : List Char → List Char → Bool
  | [], _ => true
  | _ :: _, [] => false
  | n :: ns, h :: hs => n = h ∧ charListHasPrefix ns hs

def charListContains (needle : List Char) : List Char → Bool
  | [] => needle.isEmpty
  | h :: hs => charListHasPrefix needle (h :: hs) || charListContains needle hs

/-- Python `needle in haystack` on strings. -/
def strContains (haystack needle : String) : Bool :=
  charListContains needle.data haystack.data

/-- Source `kw.lower() in clause.text.lower()`. -/
def kwMatch (text kw : String) : Bool :=
  strContains text.toLower kw.toLower

/-- Source `_find_clause_text`. -/
def findClauseText (rules : RulesExtraction) (keywords : List String) : String :=
  ((rules.rule_clauses.find? (fun c => keywords.any (fun kw => kwMatch c.text kw))).map
    (·.text)).getD "미지정"

/-- Source `_find_clause_evidence`. -/
def findClauseEvidence (rules : RulesExtraction) (keywords : List String) :
    List EvidenceRecord :=
  rules.rule_clauses.filterMap (fun c =>
    if keywords.any (fun kw => kwMatch c.text kw) then
      some (match c.evidence with
        | ev :: _ => ev
        | [] => { raw_text := c.text.take 300, snippet_path := "미지정" })
    else none)

/-- Source `member_map = {m.member_id: m for m in project.members}` (later wins). -/
def memberMapFind (members : List MemberInput) (mid : String) : Option MemberInput :=
  members.reverse.find? (fun m => m.member_id = mid)

/-! ### `_derive_control_values` -/

/-- The running side/top thickness/yield values of the member scan
(last specified value wins). -/
structure ScanAcc where
  side_t : Option ℚ := none
  top_t : Option ℚ := none
  side_y : Option ℚ := none
  top_y : Option ℚ := none
deriving DecidableEq, Repr

def scanStep (acc : ScanAcc) (m : MemberInput) : ScanAcc :=
  match m.member_role with
  | MemberRole.hatch_coaming_side_plate =>
    { acc with
      side_t := match m.thickness_mm_as_built with | some v => some v | none => acc.side_t,
      side_y := match m.yield_strength_nmm2 with | some v => some (v : ℚ) | none => acc.side_y }
  | MemberRole.hatch_coaming_top_plate =>
    { acc with
      top_t := match m.thickness_mm_as_built with | some v => some v | none => acc.top_t,
      top_y := match m.yield_strength_nmm2 with | some v => some (v : ℚ) | none => acc.top_y }
  | _ => acc

def scanMembers (members : List MemberInput) : ScanAcc :=
  members.foldl scanStep {}

/-- The t_control three-way branch of `_derive_control_values`. -/
def deriveT (a : ScanAcc) : Option ℚ × List ManualReviewFlag :=
  match a.side_t, a.top_t with
    | some s, some t => (some (max s t), [])
    | some s, none =>
      (some s,
       [{ flag_id := "CTRL-T-01",
          description := "Hatch coaming top plate thickness is 미지정; t_control based on side plate only." }])
    | none, some t =>
      (some t,
       [{ flag_id := "CTRL-T-02",
          description := "Hatch coaming side plate thickness is 미지정; t_control based on top plate only." }])
    | none, none =>
      (none,
       [{ flag_id := "CTRL-T-03",
          description := "Both coaming side and top plate thicknesses are 미지정; t_control cannot be determined.",
          severity := some "error" }])
/-- The y_control three-way branch of `_derive_control_values`, with the
yield-mismatch flag. -/
def deriveY (a : ScanAcc) : Option ℚ × List ManualReviewFlag :=
  match a.side_y, a.top_y with
    | some s, some t =>
      (some (max s t),
       if s ≠ t then
         [{ flag_id := "CTRL-Y-01",
            description := "Coaming side yield (" ++ pyFloatStr s ++ ") != top yield (" ++
              pyFloatStr t ++ "). Using max=" ++ pyFloatStr (max s t) ++ ". Review required." }]
       else [])
    | some s, none =>
      (some s,
       [{ flag_id := "CTRL-Y-02",
          description := "Hatch coaming top plate yield is 미지정; y_control based on side plate only." }])
    | none, some t =>
      (some t,
       [{ flag_id := "CTRL-Y-03",
          description := "Hatch coaming side plate yield is 미지정; y_control based on top plate only." }])
    | none, none =>
      (none,
       [{ flag_id := "CTRL-Y-04",
          description := "Both coaming yield strengths are 미지정; y_control cannot be determined.",
          severity := some "error" }])
/-- Source `_derive_control_values` (decision_engine.py lines 56-136). -/
def derive_control_values (project : ProjectInput) :
    ControlValues × List ManualReviewFlag :=
  let a := scanMembers project.members
  ({ t_control_mm := (deriveT a).1, y_control_nmm2 := (deriveY a).1 },
   (deriveT a).2 ++ (deriveY a).2)

/-! ### `_lookup_table_821` (services version, with yield-category rounding) -/

/-- Source `sorted(set(...))` on the yield categories of the table. -/
def ysCategories (table : List Table821Row) : List ℤ :=
  ((table.map (·.yield_strength_nmm2)).dedup).insertionSort (fun a b => a ≤ b)

/-- Source `_lookup_table_821` (decision_engine.py lines 143-181). -/
def lookup_table_821 (rules : RulesExtraction) (y_control : ℚ) (t_control : ℚ) :
    Option Table821Row × List ManualReviewFlag :=
  let cats := ysCategories rules.table_821
  let (matched_ys, ysFlags) : Option ℤ × List ManualReviewFlag :=
    match cats.find? (fun ys : ℤ => y_control ≤ (ys : ℚ)) with
    | some ys => (some ys, [])
    | none =>
      let m := cats.getLast?
      (m, [{ flag_id := "T821-YS-01",
             description := "y_control=" ++ pyFloatStr y_control ++
               " exceeds max table YS category. Using " ++
               (match m with | some v => toString v | none => "None") ++ "." }])
  match matched_ys with
  | none => (none, ysFlags)
  | some ys =>
    match rules.table_821.find? (fun row =>
      decide (row.yield_strength_nmm2 = ys) &&
      (match row.thickness_min_exclusive, row.thickness_max_inclusive with
       | some tmin, some tmax => decide (tmin < t_control ∧ t_control ≤ tmax)
       | _, _ => false)) with
    | some row => (some row, ysFlags)
    | none =>
      (none, ysFlags ++
        [{ flag_id := "T821-RANGE-01",
           description := "No matching thickness range for t_control=" ++
             pyFloatStr t_control ++ ", ys=" ++ toString ys ++ "." }])

/-- Source `_expand_required_measures`: set of measure ids whose cell is
`required` (represented ascending, as `sorted(M)` later produces). -/
def expand_required_measures (row : Table821Row) : List ℤ :=
  (if row.cell.m1 = MeasureStatus.required then [(1 : ℤ)] else []) ++
  (if row.cell.m2 = MeasureStatus.required then [(2 : ℤ)] else []) ++
  (if row.cell.m3 = MeasureStatus.required then [(3 : ℤ)] else []) ++
  (if row.cell.m4 = MeasureStatus.required then [(4 : ℤ)] else []) ++
  (if row.cell.m5 = MeasureStatus.required then [(5 : ℤ)] else [])

/-- Source `_lookup_bca_type` (decision_engine.py lines 205-221); `x or d` on an
optional float treats both `None` and `0` as absent, as in Python. -/
def lookup_bca_type (rules : RulesExtraction) (structural_member : String)
    (yield_strength : ℚ) (thickness : ℚ) : String :=
  ((rules.table_822.find? (fun row =>
      row.structural_member = structural_member ∧
      ((row.yield_strength_nmm2 : ℚ) = yield_strength.floor ∨
       |((row.yield_strength_nmm2 : ℚ)) - yield_strength| < 10) ∧
      (let tmin : ℚ := match row.thickness_min_exclusive with
         | some v => if v = 0 then 0 else v
         | none => 0
       let tmax : ℚ := match row.thickness_max_inclusive with
         | some v => if v = 0 then 999 else v
         | none => 999
       tmin < thickness ∧ thickness ≤ tmax))).map (·.bca_type)).getD "미지정"

/-! ### `_append_measure` — the cumulative accumulator -/

/-- Source `if note not in existing.notes: existing.notes.append(note)`. -/
def insNote (acc : List String) (note : String) : List String :=
  if note ∈ acc then acc else acc ++ [note]

/-- Merge an inserted record into an existing one with the same
`(measure_id, target_id)` key: union evidence by snippet path (the set of
known paths is computed once, as in the source) and append unseen notes. -/
def mergeMeasure (existing measure : AppliedMeasure) : AppliedMeasure :=
  let existing_snippets := existing.evidence.map (·.snippet_path)
  { existing with
    evidence := existing.evidence ++
      measure.evidence.filter (fun ev => ¬ ev.snippet_path ∈ existing_snippets),
    notes := measure.notes.foldl insNote existing.notes }

/-- Source `_append_measure` (decision_engine.py lines 258-276): idempotent insert
keyed on `measure_id` + `target_id` (the first matching record is merged
into; otherwise the record is appended). -/
def append_measure : List AppliedMeasure → AppliedMeasure → List AppliedMeasure
  | [], measure => [measure]
  | existing :: rest, measure =>
    if existing.measure_id = measure.measure_id ∧ existing.target_id = measure.target_id then
      mergeMeasure existing measure :: rest
    else
      existing :: append_measure rest measure

/-! ### Measure application -/

def Zone.pyValue : Zone → String
  | .cargo_hold_region => "cargo_hold_region"
  | .outside_cargo_hold => "outside_cargo_hold"

def JointType.pyValue : JointType → String
  | .block_to_block_butt => "block_to_block_butt"
  | .coaming_to_deck_connection => "coaming_to_deck_connection"
  | .attachment_weld => "attachment_weld"
  | .other => "other"

/-- Python f-string rendering of a JSON-sourced number (ints without a
decimal point, floats with one). -/
def pyNumStr (q : ℚ) : String :=
  if q.den = 1 then toString q.num else pyFloatStr q

def pyOptNumStr : Option ℚ → String
  | none => "미지정"
  | some q => pyNumStr q

def pyBoolStr : Bool → String
  | true => "True"
  | false => "False"

/-- Python `str` of a list of strings (used via `str(am.requirements)`). -/
def pyStrList (xs : List String) : String :=
  "[" ++ String.intercalate ", " (xs.map (fun s => sqch ++ s ++ sqch)) ++ "]"

/-- A connected member confirmed to be in the upper-flange role set. -/
def connectedUpper (members : List MemberInput) (upper_roles : List MemberRole)
    (j : JointInput) : Bool :=
  j.connected_members.any (fun mid =>
    match memberMapFind members mid with
    | some mem => mem.member_role ∈ upper_roles
    | none => false)

/-- Some connected member resolves to a member whose role is `unknown`
(`is_unspecified(member_role)` can never hold: the role field has no
sentinel value in its `Literal`). -/
def anyUnknownRole (members : List MemberInput) (j : JointInput) : Bool :=
  j.connected_members.any (fun mid =>
    match memberMapFind members mid with
    | some mem => mem.member_role = MemberRole.unknown
    | none => false)

/-- Record emitted by Measure 1 when the joint's zone is 미지정. -/
def m1UnspecRecord (clause_text : String) (evidence : List EvidenceRecord)
    (joint : JointInput) : AppliedMeasure :=
  { measure_id := 1, status := DecisionStatus.pending_manual_review,
    target_id := joint.joint_id, target_type := TargetType.joint,
    requirements := ["NDE: UT 100% (pending manual review)"],
    rule_ref := clause_text, evidence := evidence,
    notes := ["Joint type or zone is 미지정"] }

def m1UnspecFlag (joint : JointInput) : ManualReviewFlag :=
  { flag_id := "M1-" ++ joint.joint_id ++ "-UNSPEC",
    target_id := some joint.joint_id,
    description := "Joint " ++ joint.joint_id ++
      ": type or zone is 미지정, cannot determine Measure 1 applicability." }

/-- Record emitted by Measure 1 for an in-scope joint with a confirmed
upper-flange connected member. -/
def m1AppliedRecord (clause_text : String) (evidence : List EvidenceRecord)
    (jzone : Zone) (joint : JointInput) : AppliedMeasure :=
  { measure_id := 1, status := DecisionStatus.applied,
    target_id := joint.joint_id, target_type := TargetType.joint,
    requirements := ["NDE: UT 100% of block-to-block butt welds"],
    condition_expr := "zone=" ++ jzone.pyValue ++ " AND joint_type=" ++
      joint.joint_type.pyValue ++ " AND connected_to_upper_flange_member",
    rule_ref := clause_text, evidence := evidence }

/-- Record emitted by Measure 1 when no connected member is confirmed
upper-flange and some connected member's role is unknown. -/
def m1RoleRecord (clause_text : String) (evidence : List EvidenceRecord)
    (joint : JointInput) : AppliedMeasure :=
  { measure_id := 1, status := DecisionStatus.pending_manual_review,
    target_id := joint.joint_id, target_type := TargetType.joint,
    requirements := ["NDE: UT 100% (pending – member role unclear)"],
    rule_ref := clause_text, evidence := evidence }

def m1RoleFlag (joint : JointInput) : ManualReviewFlag :=
  { flag_id := "M1-" ++ joint.joint_id ++ "-ROLE",
    target_id := some joint.joint_id,
    description := "Joint " ++ joint.joint_id ++
      ": connected member role unclear, cannot confirm upper flange category." }

/-- Per-joint body of the `_apply_measure_1` loop. -/
def m1Step (members : List MemberInput) (mapping : Mapping)
    (clause_text : String) (evidence : List EvidenceRecord)
    (st : List AppliedMeasure × List ManualReviewFlag) (joint : JointInput) :
    List AppliedMeasure × List ManualReviewFlag :=
  match joint.zone with
  | none =>
    (append_measure st.1 (m1UnspecRecord clause_text evidence joint),
     st.2 ++ [m1UnspecFlag joint])
  | some jzone =>
    if joint.joint_type ∉ mapping.block_to_block_butt_types then st
    else if jzone ∉ mapping.cargo_hold_region_zones then st
    else if connectedUpper members mapping.upper_flange_long_member_roles joint then
      (append_measure st.1 (m1AppliedRecord clause_text evidence jzone joint), st.2)
    else if joint.connected_members ≠ [] ∧ anyUnknownRole members joint then
      (append_measure st.1 (m1RoleRecord clause_text evidence joint),
       st.2 ++ [m1RoleFlag joint])
    else st

/-- Source `_apply_measure_1` (decision_engine.py lines 283-369). -/
def apply_measure_1 (project : ProjectInput) (rules : RulesExtraction) (mapping : Mapping)
    (results : List AppliedMeasure) (flags : List ManualReviewFlag) :
    List AppliedMeasure × List ManualReviewFlag :=
  let evidence := findClauseEvidence rules ["Construction NDE", "UT", "100%", "block-to-block butt"]
  let clause_text := findClauseText rules ["block-to-block butt"]
  project.joints.foldl (m1Step project.members mapping clause_text evidence)
    (results, flags)

/-- Source `_apply_m3_block_shift` (lines 451-510). -/
def apply_m3_block_shift (project : ProjectInput) (rules : RulesExtraction)
    (mapping : Mapping) (params : Measure3Parameters)
    (results : List AppliedMeasure) (flags : List ManualReviewFlag) :
    List AppliedMeasure × List ManualReviewFlag :=
  let min_offset := mapping.block_shift_min_offset_mm
  let clause_text := findClauseText rules ["block shift", "stagger", "300 mm"]
  let evidence := findClauseEvidence rules ["block shift", "stagger", "300 mm"]
  match params.block_shift_offset_mm with
  | none =>
    let st := project.joints.foldl
      (fun st joint =>
        if joint.joint_type = JointType.block_to_block_butt then
          (append_measure st.1
            { measure_id := 3, status := DecisionStatus.pending_manual_review,
              target_id := joint.joint_id, target_type := TargetType.joint,
              requirements := ["Block shift: offset >= " ++ pyNumStr min_offset ++
                " mm required (offset value 미지정)"],
              rule_ref := clause_text, evidence := evidence,
              notes := ["block_shift_offset_mm is 미지정; cannot verify compliance"] },
           st.2)
        else st)
      (results, flags)
    (st.1, st.2 ++
      [{ flag_id := "M3-BS-OFFSET",
         description := "block_shift_offset_mm is 미지정. Must verify offset >= " ++
           pyNumStr min_offset ++ " mm." }])
  | some offset_f =>
    let passes := min_offset ≤ offset_f
    let pass_fail := if passes then "PASS" else "FAIL"
    project.joints.foldl
      (fun st joint =>
        if joint.joint_type = JointType.block_to_block_butt then
          -- the source assigns `applied` for PASS and FAIL alike
          let status := if passes then DecisionStatus.applied else DecisionStatus.applied
          let notes := if passes then [] else
            ["NONCOMPLIANCE: offset " ++ pyFloatStr offset_f ++ " mm < required " ++
              pyNumStr min_offset ++ " mm"]
          let flags2 := if passes then st.2 else st.2 ++
            [{ flag_id := "M3-BS-FAIL-" ++ joint.joint_id,
               target_id := some joint.joint_id,
               description := "Block shift offset " ++ pyFloatStr offset_f ++ " mm < " ++
                 pyNumStr min_offset ++ " mm at joint " ++ joint.joint_id ++ ".",
               severity := some "error" }]
          (append_measure st.1
            { measure_id := 3, status := status,
              target_id := joint.joint_id, target_type := TargetType.joint,
              requirements := ["Block shift offset = " ++ pyFloatStr offset_f ++
                " mm (required >= " ++ pyNumStr min_offset ++ " mm): " ++ pass_fail],
              condition_expr := "offset=" ++ pyFloatStr offset_f ++ "mm >= " ++
                pyNumStr min_offset ++ "mm -> " ++ pass_fail,
              rule_ref := clause_text, evidence := evidence, notes := notes },
           flags2)
        else st)
      (results, flags)

/-- Source `_apply_m3_crack_arrest_hole` (lines 513-535). -/
def apply_m3_crack_arrest_hole (project : ProjectInput) (rules : RulesExtraction)
    (params : Measure3Parameters)
    (results : List AppliedMeasure) (flags : List ManualReviewFlag) :
    List AppliedMeasure × List ManualReviewFlag :=
  let clause_text := findClauseText rules ["crack arrest hole", "fatigue"]
  let evidence := findClauseEvidence rules ["crack arrest hole", "fatigue"]
  project.joints.foldl
    (fun st joint =>
      if joint.joint_type = JointType.block_to_block_butt then
        (append_measure st.1
          { measure_id := 3, status := DecisionStatus.applied,
            target_id := joint.joint_id, target_type := TargetType.joint,
            requirements :=
              ["Crack arrest hole fitted (diameter: " ++
                 pyOptNumStr params.hole_diameter_mm ++ " mm)",
               "Fatigue strength at hole corners and intersections: special assessment REQUIRED"],
            rule_ref := clause_text, evidence := evidence },
         st.2)
      else st)
    (results, flags)

/-- Source `_apply_m3_crack_arrest_insert` (lines 538-553). -/
def apply_m3_crack_arrest_insert (project : ProjectInput) (params : Measure3Parameters)
    (results : List AppliedMeasure) (flags : List ManualReviewFlag) :
    List AppliedMeasure × List ManualReviewFlag :=
  project.joints.foldl
    (fun st joint =>
      if joint.joint_type = JointType.block_to_block_butt then
        (append_measure st.1
          { measure_id := 3, status := DecisionStatus.applied,
            target_id := joint.joint_id, target_type := TargetType.joint,
            requirements :=
              ["Crack arrest insert applied (type: " ++ params.insert_type ++ ")",
               "Insert plate or weld metal insert as per approved design"] },
         st.2)
      else st)
    (results, flags)

/-- The enhanced-NDE requirement strings. -/
def m3EnhReqs (mapping : Mapping) (params : Measure3Parameters) : List String :=
  ["Enhanced NDE method: " ++ params.enhanced_nde_method,
   "Stricter acceptance criteria per ShipRight procedure apply",
   "CTOD >= " ++ pyNumStr mapping.ctod_min_mm ++ " mm required",
   "Electrogas welding (EGW) is NOT permitted"]

/-- The per-joint record of the enhanced-NDE sub-option: conditional when
the acceptance-criteria reference is 미지정, NONCOMPLIANCE note when the
joint uses EGW and EGW is not permitted. -/
def m3EnhRecord (mapping : Mapping) (params : Measure3Parameters)
    (clause_text : String) (evidence : List EvidenceRecord)
    (joint : JointInput) : AppliedMeasure :=
  let refUnspecified := params.enhanced_nde_acceptance_criteria_ref = "미지정"
  let egwBad := joint.weld_process = WeldProcess.EGW ∧
    ¬ mapping.egw_permitted_with_enhanced_nde
  { measure_id := 3,
    status := if refUnspecified then DecisionStatus.conditional else DecisionStatus.applied,
    target_id := joint.joint_id, target_type := TargetType.joint,
    requirements := m3EnhReqs mapping params,
    condition_expr := "enhanced_NDE; CTOD>=" ++ pyNumStr mapping.ctod_min_mm ++
      "; EGW_permitted=" ++ pyBoolStr mapping.egw_permitted_with_enhanced_nde,
    rule_ref := clause_text, evidence := evidence,
    notes :=
      (if refUnspecified then
        ["enhanced_nde_acceptance_criteria_ref is 미지정; requires ShipRight document"]
       else []) ++
      (if egwBad then
        ["NONCOMPLIANCE: EGW process used but NOT permitted with enhanced NDE"]
       else []) }

def m3EnhRefFlag (joint : JointInput) : ManualReviewFlag :=
  { flag_id := "M3-ENDE-REF-" ++ joint.joint_id,
    target_id := some joint.joint_id,
    description := "Enhanced NDE acceptance criteria reference is 미지정. Provide ShipRight document." }

def m3EgwFlag (joint : JointInput) : ManualReviewFlag :=
  { flag_id := "M3-EGW-" ++ joint.joint_id,
    target_id := some joint.joint_id,
    description := "EGW not permitted at joint " ++ joint.joint_id ++
      " when enhanced NDE is selected.",
    severity := some "error" }

/-- Per-joint body of the `_apply_m3_enhanced_nde` loop. -/
def m3EnhStep (mapping : Mapping) (params : Measure3Parameters)
    (clause_text : String) (evidence : List EvidenceRecord)
    (st : List AppliedMeasure × List ManualReviewFlag) (joint : JointInput) :
    List AppliedMeasure × List ManualReviewFlag :=
  if joint.joint_type = JointType.block_to_block_butt then
    let refUnspecified := params.enhanced_nde_acceptance_criteria_ref = "미지정"
    let egwBad := joint.weld_process = WeldProcess.EGW ∧
      ¬ mapping.egw_permitted_with_enhanced_nde
    let flags1 := if refUnspecified then st.2 ++ [m3EnhRefFlag joint] else st.2
    let flags2 := if egwBad then flags1 ++ [m3EgwFlag joint] else flags1
    (append_measure st.1 (m3EnhRecord mapping params clause_text evidence joint), flags2)
  else st

/-- Source `_apply_m3_enhanced_nde` (lines 556-608). -/
def apply_m3_enhanced_nde (project : ProjectInput) (rules : RulesExtraction)
    (mapping : Mapping) (params : Measure3Parameters)
    (results : List AppliedMeasure) (flags : List ManualReviewFlag) :
    List AppliedMeasure × List ManualReviewFlag :=
  let clause_text := findClauseText rules ["enhanced NDE", "CTOD", "EGW"]
  let evidence := findClauseEvidence rules ["enhanced NDE", "CTOD", "EGW"]
  project.joints.foldl (m3EnhStep mapping params clause_text evidence)
    (results, flags)

/-- Source `_apply_measure_3` (lines 372-448). -/
def apply_measure_3 (project : ProjectInput) (rules : RulesExtraction) (mapping : Mapping)
    (results : List AppliedMeasure) (flags : List ManualReviewFlag) :
    List AppliedMeasure × List ManualReviewFlag :=
  let option := project.measure3_choice.option
  let params := project.measure3_choice.parameters
  let bca_clause := findClauseText rules ["hatch coaming side plate", "BCA", "brittle crack arrest"]
  let bca_evidence := findClauseEvidence rules ["hatch coaming side plate", "BCA"]
  let stA := project.members.foldl
    (fun st m =>
      if m.member_role = MemberRole.hatch_coaming_side_plate ∧
         (m.zone = some Zone.cargo_hold_region ∨ m.zone = none) then
        let bca_type :=
          match m.yield_strength_nmm2, m.thickness_mm_as_built with
          | some ys, some thk => lookup_bca_type rules "hatch_coaming_side_plate" (ys : ℚ) thk
          | _, _ => "미지정"
        (append_measure st.1
          { measure_id := 3, status := DecisionStatus.applied,
            target_id := m.member_id, target_type := TargetType.member,
            requirements :=
              ["Provide brittle crack arrest (BCA) steel – type: " ++ bca_type,
               "Per Table 8.2.2 for hatch coaming side plate"],
            condition_expr := "Measure 3 required AND role=hatch_coaming_side_plate",
            rule_ref := bca_clause, evidence := bca_evidence },
         st.2)
      else st)
    (results, flags)
  match option with
  | Measure3Option.unspecified =>
    let flags1 := stA.2 ++
      [{ flag_id := "M3-OPT-UNSPEC",
         description := "Measure 3 option is 미지정. User must select one of: " ++
           "block_shift, crack_arrest_hole, crack_arrest_insert, enhanced_NDE." }]
    project.joints.foldl
      (fun st joint =>
        if joint.joint_type = JointType.block_to_block_butt then
          (append_measure st.1
            { measure_id := 3, status := DecisionStatus.pending_manual_choice,
              target_id := joint.joint_id, target_type := TargetType.joint,
              requirements :=
                ["Measure 3 option not selected. Choose: block_shift / crack_arrest_hole / crack_arrest_insert / enhanced_NDE"],
              notes := ["Available options listed for user selection"] },
           st.2)
        else st)
      (stA.1, flags1)
  | Measure3Option.block_shift => apply_m3_block_shift project rules mapping params stA.1 stA.2
  | Measure3Option.crack_arrest_hole => apply_m3_crack_arrest_hole project rules params stA.1 stA.2
  | Measure3Option.crack_arrest_insert => apply_m3_crack_arrest_insert project params stA.1 stA.2
  | Measure3Option.enhanced_NDE => apply_m3_enhanced_nde project rules mapping params stA.1 stA.2

/-- Shared body of `_apply_measure_4` / `_apply_measure_5` (upper-deck BCA). -/
def applyUpperDeckBca (project : ProjectInput) (rules : RulesExtraction)
    (mid : ℤ) (reqPrefix : String) (reqSecond : String) (condExpr : String)
    (results : List AppliedMeasure) (flags : List ManualReviewFlag) :
    List AppliedMeasure × List ManualReviewFlag :=
  let clause_text := findClauseText rules ["upper deck", "BCA"]
  let evidence := findClauseEvidence rules ["upper deck", "BCA"]
  project.members.foldl
    (fun st m =>
      if m.member_role = MemberRole.upper_deck_plate ∧
         (m.zone = none ∨ m.zone = some Zone.cargo_hold_region) then
        let bca_type :=
          match m.yield_strength_nmm2, m.thickness_mm_as_built with
          | some ys, some thk => lookup_bca_type rules "upper_deck_plate" (ys : ℚ) thk
          | _, _ => "미지정"
        (append_measure st.1
          { measure_id := mid, status := DecisionStatus.applied,
            target_id := m.member_id, target_type := TargetType.member,
            requirements := [reqPrefix ++ bca_type, reqSecond],
            condition_expr := condExpr,
            rule_ref := clause_text, evidence := evidence },
         st.2)
      else st)
    (results, flags)

/-- Source `_apply_measure_4` (lines 611-645). -/
def apply_measure_4 (project : ProjectInput) (rules : RulesExtraction)
    (results : List AppliedMeasure) (flags : List ManualReviewFlag) :
    List AppliedMeasure × List ManualReviewFlag :=
  applyUpperDeckBca project rules 4 "Provide BCA steel – type: "
    "Per Table 8.2.2 for upper deck plate in cargo hold region"
    "Measure 4 required AND role=upper_deck_plate AND zone=cargo_hold_region"
    results flags

/-- Source `_apply_measure_5` (lines 648-682). -/
def apply_measure_5 (project : ProjectInput) (rules : RulesExtraction)
    (results : List AppliedMeasure) (flags : List ManualReviewFlag) :
    List AppliedMeasure × List ManualReviewFlag :=
  applyUpperDeckBca project rules 5 "Provide BCA steel (Measure 5) – type: "
    "Per Table 8.2.2 for upper deck plate (extended range, separate traceability)"
    "Measure 5 required AND role=upper_deck_plate AND zone=cargo_hold_region"
    results flags

/-- Source `_apply_measure_2` (lines 685-722): periodic in-service NDE, only when
the matched row's measure-2 cell is `see_note_2` and the Measure-3 choice
is `enhanced_NDE`. -/
def apply_measure_2 (project : ProjectInput) (rules : RulesExtraction)
    (results : List AppliedMeasure) (row : Option Table821Row) :
    List AppliedMeasure :=
  match row with
  | none => results
  | some row =>
    if row.cell.m2 ≠ MeasureStatus.see_note_2 then results
    else if project.measure3_choice.option ≠ Measure3Option.enhanced_NDE then results
    else
      let clause_text := findClauseText rules ["Note 2", "enhanced NDE", "Measure 2", "periodic"]
      let evidence := findClauseEvidence rules ["Note 2", "Measure 2", "periodic"]
      project.joints.foldl
        (fun rs joint =>
          if joint.joint_type = JointType.block_to_block_butt then
            append_measure rs
              { measure_id := 2, status := DecisionStatus.conditional,
                target_id := joint.joint_id, target_type := TargetType.joint,
                requirements :=
                  ["Periodic in-service NDE required",
                   "Frequency and extent to be agreed with LR"],
                condition_expr := "Table 8.2.1 see_note_2 AND measure3_choice.option==enhanced_NDE",
                rule_ref := clause_text, evidence := evidence,
                notes := ["Conditional per Note 2"] }
          else rs)
        results

/-- Source `_apply_weld_detail_rules` (lines 725-765). -/
def apply_weld_detail_rules (project : ProjectInput) (rules : RulesExtraction)
    (results : List AppliedMeasure) (flags : List ManualReviewFlag) :
    List AppliedMeasure × List ManualReviewFlag :=
  let pjp_clause := findClauseText rules ["PJP", "partial joint penetration", "coaming"]
  let pjp_evidence := findClauseEvidence rules ["PJP", "partial joint penetration"]
  project.joints.foldl
    (fun st joint =>
      let st1 :=
        if joint.joint_type = JointType.coaming_to_deck_connection then
          (append_measure st.1
            { measure_id := 0, status := DecisionStatus.applied,
              target_id := joint.joint_id, target_type := TargetType.joint,
              requirements := ["LR-approved partial joint penetration (PJP) welding REQUIRED"],
              condition_expr := "joint_type=coaming_to_deck_connection",
              rule_ref := pjp_clause, evidence := pjp_evidence,
              notes := ["Welding detail rule – always applicable for coaming-to-deck connections"] },
           st.2)
        else st
      if joint.weld_process = WeldProcess.EGW then
        let has_enhanced_nde := st1.1.any (fun am =>
          am.measure_id = 3 ∧ am.target_id = joint.joint_id ∧
          strContains (pyStrList am.requirements).toLower "enhanced nde")
        if has_enhanced_nde then
          (st1.1, st1.2 ++
            [{ flag_id := "EGW-NC-" ++ joint.joint_id,
               target_id := some joint.joint_id,
               description := "EGW not permitted at joint " ++ joint.joint_id ++
                 " where enhanced NDE is required.",
               severity := some "error" }])
        else st1
      else st1)
    (results, flags)

/-- Source `_check_special_consideration` (lines 772-787). -/
def check_special_consideration (project : ProjectInput) (rules : RulesExtraction)
    (flags : List ManualReviewFlag) : List ManualReviewFlag :=
  let threshold := rules.special_consideration_threshold_mm
  flags ++ project.members.filterMap (fun m =>
    match m.thickness_mm_as_built with
    | some t =>
      if t > threshold then
        some { flag_id := "SPECIAL-" ++ m.member_id,
               target_id := some m.member_id,
               description := "Member " ++ m.member_id ++ " thickness " ++ pyFloatStr t ++
                 " mm > " ++ pyNumStr threshold ++ " mm. Special consideration required per LR rules.",
               severity := some "warning" }
      else none
    | none => none)

/-! ### `run_decision` -/

/-- The sort key of `results_list.sort(key=lambda am: (am.target_id, am.measure_id))`. -/
def amKey (am : AppliedMeasure) : String × ℤ :=
  (am.target_id, am.measure_id)

/-- Strings are equal when their character lists are. -/
theorem str_eq_of_data_eq (s t : String) (h : s.data = t.data) : s = t := by
  cases s
  cases t
  cases h
  rfl

/-- Non-strict lexicographic order on the sort key; Python compares the
`(target_id, measure_id)` tuples with string comparison by code point,
modelled as the lexicographic order on the character lists. -/
def amLE (a b : AppliedMeasure) : Prop :=
  a.target_id.data < b.target_id.data ∨
  (a.target_id = b.target_id ∧ a.measure_id ≤ b.measure_id)

instance : DecidableRel amLE := fun a b =>
  inferInstanceAs (Decidable (a.target_id.data < b.target_id.data ∨
    (a.target_id = b.target_id ∧ a.measure_id ≤ b.measure_id)))

instance : IsTotal AppliedMeasure amLE where
  total a b := by
    unfold amLE
    rcases lt_trichotomy a.target_id.data b.target_id.data with h | h | h
    · exact Or.inl (Or.inl h)
    · have he : a.target_id = b.target_id := str_eq_of_data_eq _ _ h
      rcases le_total a.measure_id b.measure_id with h2 | h2
      · exact Or.inl (Or.inr ⟨he, h2⟩)
      · exact Or.inr (Or.inr ⟨he.symm, h2⟩)
    · exact Or.inr (Or.inl h)

instance : IsTrans AppliedMeasure amLE where
  trans a b c hab hbc := by
    unfold amLE at *
    rcases hab with h1 | ⟨e1, l1⟩
    · rcases hbc with h2 | ⟨e2, _⟩
      · exact Or.inl (h1.trans h2)
      · exact Or.inl (congrArg String.data e2 ▸ h1)
    · rcases hbc with h2 | ⟨e2, l2⟩
      · exact Or.inl (congrArg String.data e1 ▸ h2)
      · exact Or.inr ⟨e1.trans e2, l1.trans l2⟩

/-- The final sort of `run_decision`; since the accumulator keeps the
`(measure_id, target_id)` keys pairwise distinct (proved below), the keys
are all distinct and any comparison sort — Python's stable timsort and
this insertion sort alike — produces the unique key-ordered permutation. -/
def sortResults (l : List AppliedMeasure) : List AppliedMeasure :=
  l.insertionSort amLE

/-- Source `setdefault` + append-if-missing step of `_build_summary`. -/
def addMeasureId : List (String × List ℤ) → String → ℤ → List (String × List ℤ)
  | [], tid, mid => [(tid, [mid])]
  | (k, v) :: rest, tid, mid =>
    if k = tid then (k, if mid ∈ v then v else v ++ [mid]) :: rest
    else (k, v) :: addMeasureId rest tid mid

structure Summary where
  t_control_mm : Option ℚ
  y_control_nmm2 : Option ℚ
  required_measures_global : List ℤ
  table_821_row : Option String
  member_applied_measures : List (String × List ℤ)
  joint_applied_measures : List (String × List ℤ)
  total_applied : ℕ
  manual_review_count : ℕ
  flags_summary : List String
deriving DecidableEq, Repr

/-- Source `_build_summary` (lines 868-898). -/
def build_summary (cv : ControlValues) (results : List AppliedMeasure)
    (flags : List ManualReviewFlag) : Summary :=
  let maps := results.foldl
    (fun (acc : List (String × List ℤ) × List (String × List ℤ)) am =>
      match am.target_type with
      | TargetType.member => (addMeasureId acc.1 am.target_id am.measure_id, acc.2)
      | TargetType.joint => (acc.1, addMeasureId acc.2 am.target_id am.measure_id))
    ([], [])
  { t_control_mm := cv.t_control_mm, y_control_nmm2 := cv.y_control_nmm2,
    required_measures_global := cv.required_measures_global,
    table_821_row := cv.table_821_row_used,
    member_applied_measures := maps.1, joint_applied_measures := maps.2,
    total_applied := results.length, manual_review_count := flags.length,
    flags_summary := flags.map (·.description) }

structure DecisionResults where
  project_id : String
  control_values : ControlValues
  applied_measures : List AppliedMeasure
  manual_review_flags : List ManualReviewFlag
  summary : Summary
deriving DecidableEq, Repr

/-- Step 3 of `run_decision`: the cumulative measure applications in source
order (1, 3, 4, 5, conditional 2, always-on weld rules), threading the
results list and the flags list. -/
def apply_all_measures (project : ProjectInput) (rules : RulesExtraction)
    (mapping : Mapping) (M : List ℤ) (row : Option Table821Row)
    (flags : List ManualReviewFlag) :
    List AppliedMeasure × List ManualReviewFlag :=
  let st0 : List AppliedMeasure × List ManualReviewFlag := ([], flags)
  let st1 := if (1 : ℤ) ∈ M then apply_measure_1 project rules mapping st0.1 st0.2 else st0
  let st3 := if (3 : ℤ) ∈ M then apply_measure_3 project rules mapping st1.1 st1.2 else st1
  let st4 := if (4 : ℤ) ∈ M then apply_measure_4 project rules st3.1 st3.2 else st3
  let st5 := if (5 : ℤ) ∈ M then apply_measure_5 project rules st4.1 st4.2 else st4
  let rs2 := apply_measure_2 project rules st5.1 row
  apply_weld_detail_rules project rules rs2 st5.2

/-- Source `run_decision` (decision_engine.py lines 794-865). The mapping
configuration is passed as a value (its file loading is I/O outside the
core; an absent file yields the defaults of `Mapping`). -/
def run_decision (project : ProjectInput) (rules : RulesExtraction) (mapping : Mapping) :
    DecisionResults :=
  let (cv0, cv_flags) := derive_control_values project
  let (row, flags1) :=
    match cv0.y_control_nmm2, cv0.t_control_mm with
    | some y, some t =>
      let (r, lf) := lookup_table_821 rules y t
      (r, cv_flags ++ lf)
    | _, _ => ((none : Option Table821Row), cv_flags)
  let (M, cv1, flags2) :
      List ℤ × ControlValues × List ManualReviewFlag :=
    match row with
    | some r =>
      (expand_required_measures r,
       { cv0 with
           required_measures_global := expand_required_measures r,
           table_821_row_used := some ("YS=" ++ toString r.yield_strength_nmm2 ++
             ", range=" ++ r.thickness_range) },
       flags1)
    | none =>
      ([],
       { cv0 with required_measures_global := [] },
       flags1 ++
         (if cv0.y_control_nmm2.isSome ∧ cv0.t_control_mm.isSome then
            [{ flag_id := "T821-NO-MATCH",
               description := "No matching row in Table 8.2.1 for derived control values." }]
          else []))
  let cv := { cv1 with manual_review_flags := flags2 }
  let st6 := apply_all_measures project rules mapping M row flags2
  let flagsF := check_special_consideration project rules st6.2
  let sorted := sortResults st6.1
  { project_id := project.project_meta.project_id,
    control_values := cv,
    applied_measures := sorted,
    manual_review_flags := flagsF,
    summary := build_summary cv sorted flagsF }

/-! ### Properties of the accumulator -/

/-- Some record with the given `(measure_id, target_id)` key is present. -/
def hasKey (rs : List AppliedMeasure) (mid : ℤ) (tid : String) : Prop :=
  ∃ e ∈ rs, e.measure_id = mid ∧ e.target_id = tid

instance (rs : List AppliedMeasure) (mid : ℤ) (tid : String) :
    Decidable (hasKey rs mid tid) :=
  inferInstanceAs (Decidable (∃ e ∈ rs, e.measure_id = mid ∧ e.target_id = tid))

theorem amKey_mergeMeasure (e m : AppliedMeasure) :
    amKey (mergeMeasure e m) = amKey e := rfl

theorem status_mergeMeasure (e m : AppliedMeasure) :
    (mergeMeasure e m).status = e.status := rfl

theorem append_measure_of_not_hasKey (rs : List AppliedMeasure) (m : AppliedMeasure)
    (h : ¬ hasKey rs m.measure_id m.target_id) :
    append_measure rs m = rs ++ [m] := by
  induction rs with
  | nil => rfl
  | cons e rest ih =>
    rw [append_measure]
    rw [if_neg (fun hc => h ⟨e, List.mem_cons_self e rest, hc⟩)]
    rw [List.cons_append]
    rw [ih (fun ⟨x, hx, hk⟩ => h ⟨x, List.mem_cons_of_mem e hx, hk⟩)]

theorem keys_append_measure_of_hasKey (rs : List AppliedMeasure) (m : AppliedMeasure)
    (h : hasKey rs m.measure_id m.target_id) :
    (append_measure rs m).map amKey = rs.map amKey := by
  induction rs with
  | nil => exact absurd h (by simp [hasKey])
  | cons e rest ih =>
    rw [append_measure]
    by_cases hc : e.measure_id = m.measure_id ∧ e.target_id = m.target_id
    · rw [if_pos hc, List.map_cons, List.map_cons, amKey_mergeMeasure]
    · rw [if_neg hc, List.map_cons, List.map_cons]
      rcases h with ⟨x, hx, hk⟩
      rcases List.mem_cons.mp hx with rfl | hx2
      · exact absurd hk hc
      · rw [ih ⟨x, hx2, hk⟩]

theorem length_append_measure_of_hasKey (rs : List AppliedMeasure) (m : AppliedMeasure)
    (h : hasKey rs m.measure_id m.target_id) :
    (append_measure rs m).length = rs.length := by
  have := congrArg List.length (keys_append_measure_of_hasKey rs m h)
  simpa using this

theorem mem_append_measure_of_ne (rs : List AppliedMeasure) (m am : AppliedMeasure)
    (ham : am ∈ rs)
    (hne : am.measure_id ≠ m.measure_id ∨ am.target_id ≠ m.target_id) :
    am ∈ append_measure rs m := by
  induction rs with
  | nil => cases ham
  | cons e rest ih =>
    rw [append_measure]
    by_cases hc : e.measure_id = m.measure_id ∧ e.target_id = m.target_id
    · rw [if_pos hc]
      rcases List.mem_cons.mp ham with rfl | h2
      · rcases hne with h | h
        · exact absurd hc.1 h
        · exact absurd hc.2 h
      · exact List.mem_cons_of_mem _ h2
    · rw [if_neg hc]
      rcases List.mem_cons.mp ham with rfl | h2
      · exact List.mem_cons_self _ _
      · exact List.mem_cons_of_mem _ (ih h2)

theorem hasKey_append_measure (rs : List AppliedMeasure) (m : AppliedMeasure)
    (mid : ℤ) (tid : String) :
    hasKey (append_measure rs m) mid tid ↔
      hasKey rs mid tid ∨ (m.measure_id = mid ∧ m.target_id = tid) := by
  induction rs with
  | nil =>
    simp only [append_measure, hasKey, List.mem_singleton]
    constructor
    · rintro ⟨e, rfl, hk⟩
      exact Or.inr hk
    · rintro (⟨e, he, _⟩ | hk)
      · cases he
      · exact ⟨m, rfl, hk⟩
  | cons e rest ih =>
    rw [append_measure]
    by_cases hc : e.measure_id = m.measure_id ∧ e.target_id = m.target_id
    · rw [if_pos hc]
      constructor
      · rintro ⟨x, hx, hk⟩
        rcases List.mem_cons.mp hx with rfl | h2
        · exact Or.inl ⟨e, List.mem_cons_self e rest, hk⟩
        · exact Or.inl ⟨x, List.mem_cons_of_mem _ h2, hk⟩
      · rintro (⟨x, hx, hk⟩ | hk)
        · rcases List.mem_cons.mp hx with rfl | h2
          · exact ⟨mergeMeasure x m, List.mem_cons_self _ _, hk⟩
          · exact ⟨x, List.mem_cons_of_mem _ h2, hk⟩
        · exact ⟨mergeMeasure e m, List.mem_cons_self _ _, hc.1.trans hk.1, hc.2.trans hk.2⟩
    · rw [if_neg hc]
      constructor
      · rintro ⟨x, hx, hk⟩
        rcases List.mem_cons.mp hx with rfl | h2
        · exact Or.inl ⟨x, List.mem_cons_self _ _, hk⟩
        · rcases ih.mp ⟨x, h2, hk⟩ with h | h
          · rcases h with ⟨z, hz, hzk⟩
            exact Or.inl ⟨z, List.mem_cons_of_mem _ hz, hzk⟩
          · exact Or.inr h
      · rintro (⟨x, hx, hk⟩ | hk)
        · rcases List.mem_cons.mp hx with rfl | h2
          · exact ⟨x, List.mem_cons_self _ _, hk⟩
          · rcases ih.mpr (Or.inl ⟨x, h2, hk⟩) with ⟨z, hz, hzk⟩
            exact ⟨z, List.mem_cons_of_mem _ hz, hzk⟩
        · rcases ih.mpr (Or.inr hk) with ⟨z, hz, hzk⟩
          exact ⟨z, List.mem_cons_of_mem _ hz, hzk⟩

theorem hasKey_self_append_measure (rs : List AppliedMeasure) (m : AppliedMeasure) :
    hasKey (append_measure rs m) m.measure_id m.target_id :=
  (hasKey_append_measure rs m _ _).mpr (Or.inr ⟨rfl, rfl⟩)

theorem not_hasKey_append_measure (rs : List AppliedMeasure) (m : AppliedMeasure)
    (mid : ℤ) (tid : String) (h : ¬ hasKey rs mid tid)
    (hm : ¬ (m.measure_id = mid ∧ m.target_id = tid)) :
    ¬ hasKey (append_measure rs m) mid tid := by
  intro hk
  rcases (hasKey_append_measure rs m mid tid).mp hk with h2 | h2
  · exact h h2
  · exact hm h2

theorem mem_self_append_measure (rs : List AppliedMeasure) (m : AppliedMeasure)
    (h : ¬ hasKey rs m.measure_id m.target_id) :
    m ∈ append_measure rs m := by
  rw [append_measure_of_not_hasKey rs m h]
  exact List.mem_append_right _ (List.mem_singleton.mpr rfl)

/-- Pairwise-distinct `(target_id, measure_id)` keys. -/
def NodupKeys (rs : List AppliedMeasure) : Prop :=
  (rs.map amKey).Nodup

theorem nodupKeys_append_measure (rs : List AppliedMeasure) (m : AppliedMeasure)
    (h : NodupKeys rs) : NodupKeys (append_measure rs m) := by
  by_cases hk : hasKey rs m.measure_id m.target_id
  · unfold NodupKeys
    rw [keys_append_measure_of_hasKey rs m hk]
    exact h
  · rw [append_measure_of_not_hasKey rs m hk]
    unfold NodupKeys
    rw [List.map_append]
    refine List.Nodup.append h (List.nodup_singleton _) ?_
    intro k hk1 hk2
    rcases List.mem_map.mp hk1 with ⟨e, he, rfl⟩
    rcases List.mem_singleton.mp hk2 with h2
    have h3 : e.target_id = m.target_id ∧ e.measure_id = m.measure_id := by
      have := h2
      unfold amKey at this
      exact ⟨congrArg Prod.fst this, congrArg Prod.snd this⟩
    exact hk ⟨e, he, h3.2, h3.1⟩

/-- Invariant preservation along a `foldl`. -/
theorem foldl_induction {σ α : Type} (f : σ → α → σ) (P : σ → Prop) :
    ∀ (L : List α) (s : σ), P s → (∀ s x, x ∈ L → P s → P (f s x)) →
      P (L.foldl f s)
  | [], _, hs, _ => hs
  | x :: L, s, hs, hf =>
    foldl_induction f P L (f s x) (hf s x (List.mem_cons_self x L) hs)
      (fun s y hy hPs => hf s y (List.mem_cons_of_mem x hy) hPs)

/-! ### The measure-application pipeline keeps keys pairwise distinct -/

theorem nodupKeys_m1Step (members : List MemberInput) (mapping : Mapping)
    (ct : String) (ev : List EvidenceRecord)
    (st : List AppliedMeasure × List ManualReviewFlag) (j : JointInput)
    (h : NodupKeys st.1) : NodupKeys (m1Step members mapping ct ev st j).1 := by
  unfold m1Step
  cases j.zone with
  | none => exact nodupKeys_append_measure _ _ h
  | some z =>
    dsimp only
    split_ifs <;>
      first
        | exact h
        | exact nodupKeys_append_measure _ _ h

theorem nodupKeys_apply_measure_1 (project : ProjectInput) (rules : RulesExtraction)
    (mapping : Mapping) (results : List AppliedMeasure) (flags : List ManualReviewFlag)
    (h : NodupKeys results) :
    NodupKeys (apply_measure_1 project rules mapping results flags).1 := by
  unfold apply_measure_1
  exact foldl_induction _ (fun st => NodupKeys st.1) project.joints (results, flags) h
    (fun st x _ hP => nodupKeys_m1Step _ _ _ _ st x hP)

theorem nodupKeys_apply_m3_block_shift (project : ProjectInput) (rules : RulesExtraction)
    (mapping : Mapping) (params : Measure3Parameters)
    (results : List AppliedMeasure) (flags : List ManualReviewFlag)
    (h : NodupKeys results) :
    NodupKeys (apply_m3_block_shift project rules mapping params results flags).1 := by
  unfold apply_m3_block_shift
  cases params.block_shift_offset_mm with
  | none =>
    dsimp only
    refine foldl_induction _ (fun st => NodupKeys st.1) project.joints (results, flags) h
      (fun st x _ hP => ?_)
    dsimp only
    split_ifs <;>
      first
        | exact nodupKeys_append_measure _ _ hP
        | exact hP
  | some v =>
    dsimp only
    refine foldl_induction _ (fun st => NodupKeys st.1) project.joints (results, flags) h
      (fun st x _ hP => ?_)
    dsimp only
    split_ifs <;>
      first
        | exact nodupKeys_append_measure _ _ hP
        | exact hP

theorem nodupKeys_apply_m3_crack_arrest_hole (project : ProjectInput)
    (rules : RulesExtraction) (params : Measure3Parameters)
    (results : List AppliedMeasure) (flags : List ManualReviewFlag)
    (h : NodupKeys results) :
    NodupKeys (apply_m3_crack_arrest_hole project rules params results flags).1 := by
  unfold apply_m3_crack_arrest_hole
  refine foldl_induction _ (fun st => NodupKeys st.1) project.joints (results, flags) h
    (fun st x _ hP => ?_)
  dsimp only
  split_ifs <;>
    first
      | exact nodupKeys_append_measure _ _ hP
      | exact hP

theorem nodupKeys_apply_m3_crack_arrest_insert (project : ProjectInput)
    (params : Measure3Parameters)
    (results : List AppliedMeasure) (flags : List ManualReviewFlag)
    (h : NodupKeys results) :
    NodupKeys (apply_m3_crack_arrest_insert project params results flags).1 := by
  unfold apply_m3_crack_arrest_insert
  refine foldl_induction _ (fun st => NodupKeys st.1) project.joints (results, flags) h
    (fun st x _ hP => ?_)
  dsimp only
  split_ifs <;>
    first
      | exact nodupKeys_append_measure _ _ hP
      | exact hP

theorem nodupKeys_m3EnhStep (mapping : Mapping) (params : Measure3Parameters)
    (ct : String) (ev : List EvidenceRecord)
    (st : List AppliedMeasure × List ManualReviewFlag) (j : JointInput)
    (h : NodupKeys st.1) : NodupKeys (m3EnhStep mapping params ct ev st j).1 := by
  unfold m3EnhStep
  split_ifs
  · exact nodupKeys_append_measure _ _ h
  · exact h

theorem nodupKeys_apply_m3_enhanced_nde (project : ProjectInput) (rules : RulesExtraction)
    (mapping : Mapping) (params : Measure3Parameters)
    (results : List AppliedMeasure) (flags : List ManualReviewFlag)
    (h : NodupKeys results) :
    NodupKeys (apply_m3_enhanced_nde project rules mapping params results flags).1 := by
  unfold apply_m3_enhanced_nde
  exact foldl_induction _ (fun st => NodupKeys st.1) project.joints (results, flags) h
    (fun st x _ hP => nodupKeys_m3EnhStep _ _ _ _ st x hP)

theorem nodupKeys_apply_measure_3 (project : ProjectInput) (rules : RulesExtraction)
    (mapping : Mapping) (results : List AppliedMeasure) (flags : List ManualReviewFlag)
    (h : NodupKeys results) :
    NodupKeys (apply_measure_3 project rules mapping results flags).1 := by
  unfold apply_measure_3
  have hA : ∀ (rs : List AppliedMeasure) (fl : List ManualReviewFlag), NodupKeys rs →
      NodupKeys (project.members.foldl (fun st m =>
        if m.member_role = MemberRole.hatch_coaming_side_plate ∧
           (m.zone = some Zone.cargo_hold_region ∨ m.zone = none) then
          (append_measure st.1
            { measure_id := 3, status := DecisionStatus.applied,
              target_id := m.member_id, target_type := TargetType.member,
              requirements :=
                ["Provide brittle crack arrest (BCA) steel – type: " ++
                   (match m.yield_strength_nmm2, m.thickness_mm_as_built with
                    | some ys, some thk =>
                      lookup_bca_type rules "hatch_coaming_side_plate" (ys : ℚ) thk
                    | _, _ => "미지정"),
                 "Per Table 8.2.2 for hatch coaming side plate"],
              condition_expr := "Measure 3 required AND role=hatch_coaming_side_plate",
              rule_ref := findClauseText rules
                ["hatch coaming side plate", "BCA", "brittle crack arrest"],
              evidence := findClauseEvidence rules ["hatch coaming side plate", "BCA"] },
           st.2)
        else st) (rs, fl)).1 := by
    intro rs fl hrs
    refine foldl_induction _ (fun st => NodupKeys st.1) project.members (rs, fl) hrs
      (fun st x _ hP => ?_)
    dsimp only
    split_ifs <;>
      first
        | exact nodupKeys_append_measure _ _ hP
        | exact hP
  dsimp only
  rcases hopt : project.measure3_choice.option with _ | _ | _ | _ | _
  all_goals dsimp only
  · exact nodupKeys_apply_m3_block_shift _ _ _ _ _ _ (hA results flags h)
  · exact nodupKeys_apply_m3_crack_arrest_hole _ _ _ _ _ (hA results flags h)
  · exact nodupKeys_apply_m3_crack_arrest_insert _ _ _ _ (hA results flags h)
  · exact nodupKeys_apply_m3_enhanced_nde _ _ _ _ _ _ (hA results flags h)
  · refine foldl_induction (σ := List AppliedMeasure × List ManualReviewFlag) _
      (fun st => NodupKeys st.1) project.joints _ ?_ (fun st x _ hP => ?_)
    · exact hA results flags h
    · dsimp only
      split_ifs <;>
        first
          | exact nodupKeys_append_measure _ _ hP
          | exact hP

theorem nodupKeys_applyUpperDeckBca (project : ProjectInput) (rules : RulesExtraction)
    (mid : ℤ) (p1 p2 p3 : String)
    (results : List AppliedMeasure) (flags : List ManualReviewFlag)
    (h : NodupKeys results) :
    NodupKeys (applyUpperDeckBca project rules mid p1 p2 p3 results flags).1 := by
  unfold applyUpperDeckBca
  refine foldl_induction _ (fun st => NodupKeys st.1) project.members (results, flags) h
    (fun st x _ hP => ?_)
  dsimp only
  split_ifs <;>
    first
      | exact nodupKeys_append_measure _ _ hP
      | exact hP

theorem nodupKeys_apply_measure_2 (project : ProjectInput) (rules : RulesExtraction)
    (results : List AppliedMeasure) (row : Option Table821Row)
    (h : NodupKeys results) :
    NodupKeys (apply_measure_2 project rules results row) := by
  unfold apply_measure_2
  cases row with
  | none => exact h
  | some r =>
    dsimp only
    split_ifs
    · exact h
    · exact h
    · refine foldl_induction _ NodupKeys project.joints results h
        (fun st x _ hP => ?_)
      dsimp only
      split_ifs <;>
        first
          | exact nodupKeys_append_measure _ _ hP
          | exact hP

theorem nodupKeys_apply_weld_detail_rules (project : ProjectInput)
    (rules : RulesExtraction)
    (results : List AppliedMeasure) (flags : List ManualReviewFlag)
    (h : NodupKeys results) :
    NodupKeys (apply_weld_detail_rules project rules results flags).1 := by
  unfold apply_weld_detail_rules
  refine foldl_induction _ (fun st => NodupKeys st.1) project.joints (results, flags) h
    (fun st x _ hP => ?_)
  dsimp only
  split_ifs <;>
    first
      | exact hP
      | exact nodupKeys_append_measure _ _ hP

theorem nodupKeys_apply_measure_4 (project : ProjectInput) (rules : RulesExtraction)
    (results : List AppliedMeasure) (flags : List ManualReviewFlag)
    (h : NodupKeys results) :
    NodupKeys (apply_measure_4 project rules results flags).1 := by
  unfold apply_measure_4
  exact nodupKeys_applyUpperDeckBca _ _ _ _ _ _ _ _ h

theorem nodupKeys_apply_measure_5 (project : ProjectInput) (rules : RulesExtraction)
    (results : List AppliedMeasure) (flags : List ManualReviewFlag)
    (h : NodupKeys results) :
    NodupKeys (apply_measure_5 project rules results flags).1 := by
  unfold apply_measure_5
  exact nodupKeys_applyUpperDeckBca _ _ _ _ _ _ _ _ h

theorem nodupKeys_ite (c : Prop) [Decidable c]
    (a b : List AppliedMeasure × List ManualReviewFlag)
    (ha : NodupKeys a.1) (hb : NodupKeys b.1) :
    NodupKeys (if c then a else b).1 := by
  split_ifs
  · exact ha
  · exact hb

theorem nodupKeys_apply_all_measures (project : ProjectInput) (rules : RulesExtraction)
    (mapping : Mapping) (M : List ℤ) (row : Option Table821Row)
    (flags : List ManualReviewFlag) :
    NodupKeys (apply_all_measures project rules mapping M row flags).1 := by
  unfold apply_all_measures
  dsimp only
  have h0 : NodupKeys ([] : List AppliedMeasure) := List.nodup_nil
  set st1 := (if (1 : ℤ) ∈ M then apply_measure_1 project rules mapping [] flags
    else (([] : List AppliedMeasure), flags)) with hst1
  set st3 := (if (3 : ℤ) ∈ M then apply_measure_3 project rules mapping st1.1 st1.2
    else st1) with hst3
  set st4 := (if (4 : ℤ) ∈ M then apply_measure_4 project rules st3.1 st3.2
    else st3) with hst4
  set st5 := (if (5 : ℤ) ∈ M then apply_measure_5 project rules st4.1 st4.2
    else st4) with hst5
  have h1 : NodupKeys st1.1 := by
    rw [hst1]
    exact nodupKeys_ite _ _ _ (nodupKeys_apply_measure_1 project rules mapping [] flags h0) h0
  have h3 : NodupKeys st3.1 := by
    rw [hst3]
    exact nodupKeys_ite _ _ _ (nodupKeys_apply_measure_3 project rules mapping st1.1 st1.2 h1) h1
  have h4 : NodupKeys st4.1 := by
    rw [hst4]
    exact nodupKeys_ite _ _ _ (nodupKeys_apply_measure_4 project rules st3.1 st3.2 h3) h3
  have h5 : NodupKeys st5.1 := by
    rw [hst5]
    exact nodupKeys_ite _ _ _ (nodupKeys_apply_measure_5 project rules st4.1 st4.2 h4) h4
  exact nodupKeys_apply_weld_detail_rules project rules _ _
    (nodupKeys_apply_measure_2 project rules _ row h5)

/-! ### Idempotence of the merge -/

theorem mem_insNote_self (acc : List String) (n : String) : n ∈ insNote acc n := by
  unfold insNote
  split_ifs with h
  · exact h
  · exact List.mem_append_right _ (List.mem_singleton.mpr rfl)

theorem mem_insNote_mono (acc : List String) (a n : String) (h : a ∈ acc) :
    a ∈ insNote acc n := by
  unfold insNote
  split_ifs
  · exact h
  · exact List.mem_append_left _ h

theorem mem_foldl_insNote_of_mem_acc (l : List String) (acc : List String) (a : String)
    (h : a ∈ acc) : a ∈ l.foldl insNote acc := by
  induction l generalizing acc with
  | nil => exact h
  | cons x xs ih => exact ih (insNote acc x) (mem_insNote_mono acc a x h)

theorem mem_foldl_insNote_of_mem (l : List String) (acc : List String) (a : String)
    (h : a ∈ l) : a ∈ l.foldl insNote acc := by
  induction l generalizing acc with
  | nil => cases h
  | cons x xs ih =>
    rcases List.mem_cons.mp h with rfl | h2
    · exact mem_foldl_insNote_of_mem_acc xs (insNote acc a) a (mem_insNote_self acc a)
    · exact ih (insNote acc x) h2

theorem foldl_insNote_of_all_mem (l : List String) (acc : List String)
    (h : ∀ n ∈ l, n ∈ acc) : l.foldl insNote acc = acc := by
  induction l with
  | nil => rfl
  | cons x xs ih =>
    have hx : insNote acc x = acc := by
      unfold insNote
      exact if_pos (h x (List.mem_cons_self x xs))
    rw [List.foldl_cons, hx]
    exact ih (fun n hn => h n (List.mem_cons_of_mem x hn))

/-- Merging a record whose evidence paths and notes are already all present
is the identity. -/
theorem mergeMeasure_of_absorbed (e m : AppliedMeasure)
    (hev : ∀ ev ∈ m.evidence, ev.snippet_path ∈ e.evidence.map (·.snippet_path))
    (hnt : ∀ n ∈ m.notes, n ∈ e.notes) : mergeMeasure e m = e := by
  unfold mergeMeasure
  dsimp only
  have h1 : m.evidence.filter
      (fun ev => ¬ ev.snippet_path ∈ e.evidence.map (·.snippet_path)) = [] := by
    rw [List.filter_eq_nil_iff]
    intro ev hevm
    simp only [decide_not, Bool.not_eq_true', decide_eq_false_iff_not, not_not]
    exact hev ev hevm
  rw [h1, List.append_nil, foldl_insNote_of_all_mem m.notes e.notes hnt]

theorem mergeMeasure_self (m : AppliedMeasure) : mergeMeasure m m = m :=
  mergeMeasure_of_absorbed m m
    (fun _ hev => List.mem_map_of_mem (·.snippet_path) hev)
    (fun _ hn => hn)

theorem mergeMeasure_merge (e m : AppliedMeasure) :
    mergeMeasure (mergeMeasure e m) m = mergeMeasure e m := by
  refine mergeMeasure_of_absorbed _ m ?_ ?_
  · intro ev hev
    by_cases hp : ev.snippet_path ∈ e.evidence.map (·.snippet_path)
    · unfold mergeMeasure
      dsimp only
      rw [List.map_append]
      exact List.mem_append_left _ hp
    · have hfilt : ev ∈ m.evidence.filter
          (fun x => ¬ x.snippet_path ∈ e.evidence.map (·.snippet_path)) := by
        rw [List.mem_filter]
        refine ⟨hev, ?_⟩
        simp only [decide_not, Bool.not_eq_true', decide_eq_false_iff_not]
        exact hp
      unfold mergeMeasure
      dsimp only
      rw [List.map_append]
      exact List.mem_append_right _ (List.mem_map_of_mem (·.snippet_path) hfilt)
  · intro n hn
    exact mem_foldl_insNote_of_mem m.notes e.notes n hn

/-- Re-inserting the same record is a no-op: the accumulator's merge makes
repeated application of the same measure to the same target idempotent. -/
theorem append_measure_idem (rs : List AppliedMeasure) (m : AppliedMeasure) :
    append_measure (append_measure rs m) m = append_measure rs m := by
  induction rs with
  | nil =>
    show append_measure [m] m = [m]
    unfold append_measure
    rw [if_pos ⟨rfl, rfl⟩, mergeMeasure_self]
  | cons e rest ih =>
    rw [append_measure]
    by_cases hc : e.measure_id = m.measure_id ∧ e.target_id = m.target_id
    · rw [if_pos hc]
      rw [append_measure, if_pos ⟨hc.1, hc.2⟩, mergeMeasure_merge]
    · rw [if_neg hc]
      rw [append_measure, if_neg hc, ih]

/-! ### Tracking individual records through the Measure-1 and
enhanced-NDE loops -/

/-- Each Measure-1 step either leaves the results untouched or inserts one
record keyed `(1, joint_id)`. -/
theorem m1Step_fst_cases (members : List MemberInput) (mapping : Mapping)
    (ct : String) (ev : List EvidenceRecord)
    (st : List AppliedMeasure × List ManualReviewFlag) (j : JointInput) :
    (m1Step members mapping ct ev st j).1 = st.1 ∨
    ∃ r : AppliedMeasure, r.measure_id = 1 ∧ r.target_id = j.joint_id ∧
      (m1Step members mapping ct ev st j).1 = append_measure st.1 r := by
  unfold m1Step
  cases j.zone with
  | none => exact Or.inr ⟨m1UnspecRecord ct ev j, rfl, rfl, rfl⟩
  | some z =>
    dsimp only
    by_cases h1 : j.joint_type ∉ mapping.block_to_block_butt_types
    · rw [if_pos h1]
      exact Or.inl rfl
    · rw [if_neg h1]
      by_cases h2 : z ∉ mapping.cargo_hold_region_zones
      · rw [if_pos h2]
        exact Or.inl rfl
      · rw [if_neg h2]
        by_cases h3 : connectedUpper members mapping.upper_flange_long_member_roles j = true
        · rw [if_pos h3]
          exact Or.inr ⟨m1AppliedRecord ct ev z j, rfl, rfl, rfl⟩
        · rw [if_neg h3]
          by_cases h4 : j.connected_members ≠ [] ∧ anyUnknownRole members j = true
          · rw [if_pos h4]
            exact Or.inr ⟨m1RoleRecord ct ev j, rfl, rfl, rfl⟩
          · rw [if_neg h4]
            exact Or.inl rfl

theorem m1Step_snd_mono (members : List MemberInput) (mapping : Mapping)
    (ct : String) (ev : List EvidenceRecord)
    (st : List AppliedMeasure × List ManualReviewFlag) (j : JointInput)
    (g : ManualReviewFlag) (h : g ∈ st.2) :
    g ∈ (m1Step members mapping ct ev st j).2 := by
  unfold m1Step
  cases j.zone with
  | none => exact List.mem_append_left _ h
  | some z =>
    dsimp only
    split_ifs <;>
      first
        | exact h
        | exact List.mem_append_left _ h

theorem foldl_m1_not_hasKey (members : List MemberInput) (mapping : Mapping)
    (ct : String) (ev : List EvidenceRecord) (L : List JointInput)
    (st : List AppliedMeasure × List ManualReviewFlag) (tid : String)
    (hL : ∀ x ∈ L, x.joint_id ≠ tid) (h : ¬ hasKey st.1 1 tid) :
    ¬ hasKey (L.foldl (m1Step members mapping ct ev) st).1 1 tid := by
  refine foldl_induction _ (fun st => ¬ hasKey st.1 1 tid) L st h
    (fun s x hx hP => ?_)
  rcases m1Step_fst_cases members mapping ct ev s x with hc | ⟨r, hr1, hr2, hc⟩
  · rw [hc]
    exact hP
  · rw [hc]
    exact not_hasKey_append_measure _ _ _ _ hP
      (fun hk => hL x hx (hr2 ▸ hk.2))

theorem foldl_m1_mem_preserved (members : List MemberInput) (mapping : Mapping)
    (ct : String) (ev : List EvidenceRecord) (L : List JointInput)
    (st : List AppliedMeasure × List ManualReviewFlag) (am : AppliedMeasure)
    (hL : ∀ x ∈ L, x.joint_id ≠ am.target_id) (h : am ∈ st.1) :
    am ∈ (L.foldl (m1Step members mapping ct ev) st).1 := by
  refine foldl_induction _ (fun st => am ∈ st.1) L st h (fun s x hx hP => ?_)
  rcases m1Step_fst_cases members mapping ct ev s x with hc | ⟨r, hr1, hr2, hc⟩
  · rw [hc]
    exact hP
  · rw [hc]
    exact mem_append_measure_of_ne _ _ _ hP (Or.inr (hr2 ▸ hL x hx ∘ Eq.symm))

theorem foldl_m1_flags_preserved (members : List MemberInput) (mapping : Mapping)
    (ct : String) (ev : List EvidenceRecord) (L : List JointInput)
    (st : List AppliedMeasure × List ManualReviewFlag) (g : ManualReviewFlag)
    (h : g ∈ st.2) :
    g ∈ (L.foldl (m1Step members mapping ct ev) st).2 := by
  refine foldl_induction _ (fun st => g ∈ st.2) L st h (fun s x _ hP => ?_)
  exact m1Step_snd_mono members mapping ct ev s x g hP

/-- Each enhanced-NDE step either leaves the results untouched or inserts
one record keyed `(3, joint_id)`. -/
theorem m3EnhStep_fst_cases (mapping : Mapping) (params : Measure3Parameters)
    (ct : String) (ev : List EvidenceRecord)
    (st : List AppliedMeasure × List ManualReviewFlag) (j : JointInput) :
    (m3EnhStep mapping params ct ev st j).1 = st.1 ∨
    ∃ r : AppliedMeasure, r.measure_id = 3 ∧ r.target_id = j.joint_id ∧
      (m3EnhStep mapping params ct ev st j).1 = append_measure st.1 r := by
  unfold m3EnhStep
  split_ifs
  · exact Or.inr ⟨m3EnhRecord mapping params ct ev j, rfl, rfl, rfl⟩
  · exact Or.inl rfl

theorem m3EnhStep_snd_mono (mapping : Mapping) (params : Measure3Parameters)
    (ct : String) (ev : List EvidenceRecord)
    (st : List AppliedMeasure × List ManualReviewFlag) (j : JointInput)
    (g : ManualReviewFlag) (h : g ∈ st.2) :
    g ∈ (m3EnhStep mapping params ct ev st j).2 := by
  unfold m3EnhStep
  by_cases hb : j.joint_type = JointType.block_to_block_butt
  · rw [if_pos hb]
    dsimp only
    split_ifs <;>
      first
        | exact h
        | exact List.mem_append_left _ h
        | exact List.mem_append_left _ (List.mem_append_left _ h)
  · rw [if_neg hb]
    exact h

theorem foldl_m3Enh_not_hasKey (mapping : Mapping) (params : Measure3Parameters)
    (ct : String) (ev : List EvidenceRecord) (L : List JointInput)
    (st : List AppliedMeasure × List ManualReviewFlag) (tid : String)
    (hL : ∀ x ∈ L, x.joint_id ≠ tid) (h : ¬ hasKey st.1 3 tid) :
    ¬ hasKey (L.foldl (m3EnhStep mapping params ct ev) st).1 3 tid := by
  refine foldl_induction _ (fun st => ¬ hasKey st.1 3 tid) L st h
    (fun s x hx hP => ?_)
  rcases m3EnhStep_fst_cases mapping params ct ev s x with hc | ⟨r, hr1, hr2, hc⟩
  · rw [hc]
    exact hP
  · rw [hc]
    exact not_hasKey_append_measure _ _ _ _ hP
      (fun hk => hL x hx (hr2 ▸ hk.2))

theorem foldl_m3Enh_mem_preserved (mapping : Mapping) (params : Measure3Parameters)
    (ct : String) (ev : List EvidenceRecord) (L : List JointInput)
    (st : List AppliedMeasure × List ManualReviewFlag) (am : AppliedMeasure)
    (hL : ∀ x ∈ L, x.joint_id ≠ am.target_id) (h : am ∈ st.1) :
    am ∈ (L.foldl (m3EnhStep mapping params ct ev) st).1 := by
  refine foldl_induction _ (fun st => am ∈ st.1) L st h (fun s x hx hP => ?_)
  rcases m3EnhStep_fst_cases mapping params ct ev s x with hc | ⟨r, hr1, hr2, hc⟩
  · rw [hc]
    exact hP
  · rw [hc]
    exact mem_append_measure_of_ne _ _ _ hP (Or.inr (hr2 ▸ hL x hx ∘ Eq.symm))

theorem foldl_m3Enh_flags_preserved (mapping : Mapping) (params : Measure3Parameters)
    (ct : String) (ev : List EvidenceRecord) (L : List JointInput)
    (st : List AppliedMeasure × List ManualReviewFlag) (g : ManualReviewFlag)
    (h : g ∈ st.2) :
    g ∈ (L.foldl (m3EnhStep mapping params ct ev) st).2 := by
  refine foldl_induction _ (fun st => g ∈ st.2) L st h (fun s x _ hP => ?_)
  exact m3EnhStep_snd_mono mapping params ct ev s x g hP

/-- From `Nodup` of the joint ids of `L₁ ++ j :: L₂`: `j`'s id appears in
neither side. -/
theorem joint_ids_split (L₁ : List JointInput) (j : JointInput) (L₂ : List JointInput)
    (h : ((L₁ ++ j :: L₂).map (·.joint_id)).Nodup) :
    (∀ x ∈ L₁, x.joint_id ≠ j.joint_id) ∧ (∀ x ∈ L₂, x.joint_id ≠ j.joint_id) := by
  rw [List.map_append, List.map_cons, List.nodup_append] at h
  obtain ⟨h1, h2, h3⟩ := h
  constructor
  · intro x hx he
    exact h3 (List.mem_map_of_mem _ hx) (he ▸ List.mem_cons_self _ _)
  · intro x hx he
    rw [List.nodup_cons] at h2
    exact h2.1 (he ▸ List.mem_map_of_mem (·.joint_id) hx)

/-! ### Sortedness of the final list -/

/-- Strict lexicographic order on `(target_id, measure_id)`. -/
def amLT (a b : AppliedMeasure) : Prop :=
  a.target_id.data < b.target_id.data ∨
  (a.target_id = b.target_id ∧ a.measure_id < b.measure_id)

theorem amLT_of_amLE_of_key_ne (a b : AppliedMeasure)
    (h1 : amLE a b) (h2 : amKey a ≠ amKey b) : amLT a b := by
  rcases h1 with h | ⟨e, l⟩
  · exact Or.inl h
  · refine Or.inr ⟨e, lt_of_le_of_ne l ?_⟩
    intro hm
    apply h2
    unfold amKey
    rw [e, hm]

theorem nodupKeys_sortResults (l : List AppliedMeasure) (h : NodupKeys l) :
    NodupKeys (sortResults l) := by
  unfold NodupKeys sortResults at *
  exact ((List.perm_insertionSort amLE l).map amKey).nodup_iff.mpr h

theorem pairwise_amLT_sortResults (l : List AppliedMeasure) (h : NodupKeys l) :
    (sortResults l).Pairwise amLT := by
  have hs : List.Sorted amLE (sortResults l) := List.sorted_insertionSort amLE l
  have hn : (sortResults l).Pairwise (fun a b => amKey a ≠ amKey b) :=
    List.pairwise_map.mp (nodupKeys_sortResults l h)
  exact (hs.and hn).imp (fun hab => amLT_of_amLE_of_key_ne _ _ hab.1 hab.2)

end Svc

/-! ## Helper lemmas about the decision engine (LRHC) -/

/-- Source `required[2]` as produced by `buildRowResult` (the Note-2 gate). -/
theorem LRHC.buildRowResult_r2 (row : LRHC.Table821Row) (choice : LRHC.Measure3Choice)
    (fb : List LRHC.ManualReviewFlag) :
    (LRHC.buildRowResult row choice fb).1.r2 =
      if row.measure_2.status = LRHC.MeasureStatus.see_note_2 then
        (if choice.option = LRHC.Measure3Option.enhanced_NDE then
          LRHC.MeasureStatus.conditional
        else LRHC.MeasureStatus.not_required)
      else row.measure_2.status := by
  unfold LRHC.buildRowResult
  dsimp only
  split_ifs <;> rfl

/-- Source `determine_required_measures` evaluates the Note-2 gate on the row it
actually matched (directly or through the yield fallback). -/
theorem LRHC.determine_r2_eq (tbl : List LRHC.Table821Row)
    (choice : LRHC.Measure3Choice) (y : ℤ) (t : ℚ) (row : LRHC.Table821Row)
    (ht : ¬ t > 100) (hrow : LRHC.effectiveRow tbl y t = some row) :
    (LRHC.determine_required_measures tbl (some y) (some t) choice).1.r2 =
      (LRHC.buildRowResult row choice []).1.r2 := by
  unfold LRHC.determine_required_measures
  unfold LRHC.effectiveRow at hrow
  dsimp only
  rw [if_neg ht]
  cases h1 : LRHC.lookup_table_821 tbl y t with
  | some r =>
    rw [h1] at hrow
    cases hrow
    rfl
  | none =>
    rw [h1] at hrow
    cases h2 : LRHC.lookup_table_821 tbl 355 t with
    | some r =>
      rw [h2] at hrow
      cases hrow
      rfl
    | none =>
      rw [h2] at hrow
      cases h3 : LRHC.lookup_table_821 tbl 390 t with
      | some r =>
        rw [h3] at hrow
        cases hrow
        rfl
      | none =>
        rw [h3] at hrow
        cases h4 : LRHC.lookup_table_821 tbl 460 t with
        | some r =>
          rw [h4] at hrow
          cases hrow
          rfl
        | none =>
          rw [h4] at hrow
          cases hrow

/-! ## Concrete fixtures used by witnesses and counterexamples -/

/-- A Table 8.2.1 row whose measure-2 cell literally says Required. -/
def rowM2Required : LRHC.Table821Row :=
  { yield_strength_nmm2 := 355, thickness_range_mm := "50 < t ≤ 65",
    t_min_mm := 50, t_max_mm := 65,
    measure_1 := { status := LRHC.MeasureStatus.required },
    measure_2 := { status := LRHC.MeasureStatus.required },
    measure_3_and_4 := { status := LRHC.MeasureStatus.not_required },
    measure_5 := { status := LRHC.MeasureStatus.not_required } }

/-- A Table 8.2.1 row whose measure-2 cell says See Note 2. -/
def rowM2Note2 : LRHC.Table821Row :=
  { rowM2Required with measure_2 := { status := LRHC.MeasureStatus.see_note_2 } }

def choiceBlockShift : LRHC.Measure3Choice :=
  { option := LRHC.Measure3Option.block_shift }

def choiceEnhancedNDE : LRHC.Measure3Choice :=
  { option := LRHC.Measure3Option.enhanced_NDE }

/-! ## Claims -/

/-- C5: for every input where y_control or t_control is the sentinel, the
Table 8.2.1 lookup is skipped (`lookup_info` stays empty), a
"control_unspecified" / "cannot evaluate" manual-review flag is raised,
all five measures default to not-required, and the function returns
normally (no exception). -/
theorem determine_required_measures_sentinel_skips_lookup
    (tbl : List LRHC.Table821Row) (choice : LRHC.Measure3Choice)
    (y : Option ℤ) (t : Option ℚ) (h : y = none ∨ t = none) :
    (LRHC.determine_required_measures tbl y t choice).1 =
      LRHC.RequiredMeasures.allNotRequired ∧
    (LRHC.determine_required_measures tbl y t choice).2.1 = {} ∧
    ((LRHC.determine_required_measures tbl y t choice).2.2.map (·.flag_id)) =
      ["control_unspecified"] ∧
    ((LRHC.determine_required_measures tbl y t choice).2.2.map (·.category)) =
      ["decision"] := by
  rcases h with rfl | rfl
  · exact ⟨rfl, rfl, rfl, rfl⟩
  · cases y with
    | none => exact ⟨rfl, rfl, rfl, rfl⟩
    | some v => exact ⟨rfl, rfl, rfl, rfl⟩

/-- Witness for C5 at a concrete input (t_control unspecified). -/
theorem determine_required_measures_sentinel_skips_lookup_witness :
    (LRHC.determine_required_measures [rowM2Note2] (some 355) none choiceBlockShift).1 =
      LRHC.RequiredMeasures.allNotRequired ∧
    (LRHC.determine_required_measures [rowM2Note2] (some 355) none choiceBlockShift).2.1 = {} ∧
    ((LRHC.determine_required_measures [rowM2Note2] (some 355) none
        choiceBlockShift).2.2.map (·.flag_id)) = ["control_unspecified"] ∧
    ((LRHC.determine_required_measures [rowM2Note2] (some 355) none
        choiceBlockShift).2.2.map (·.category)) = ["decision"] :=
  determine_required_measures_sentinel_skips_lookup [rowM2Note2] choiceBlockShift
    (some 355) none (Or.inr rfl)

/-- C6: for every numeric control pair with t_control > 100 mm, the engine
raises the "special consideration" flag (`thickness_gt100`), forces all
five measures to required, records the special note, matches no row, and
does not consult the table at all (the result is the same for every
table). -/
theorem determine_required_measures_gt100_forces_required
    (tbl tbl2 : List LRHC.Table821Row) (choice : LRHC.Measure3Choice)
    (y : ℤ) (t : ℚ) (h : t > 100) :
    (LRHC.determine_required_measures tbl (some y) (some t) choice).1 =
      LRHC.RequiredMeasures.allRequired ∧
    ((LRHC.determine_required_measures tbl (some y) (some t) choice).2.2.map
      (·.flag_id)) = ["thickness_gt100"] ∧
    ((LRHC.determine_required_measures tbl (some y) (some t) choice).2.2.map
      (·.category)) = ["special_consideration"] ∧
    (LRHC.determine_required_measures tbl (some y) (some t) choice).2.1.special =
      some "thickness > 100mm → all measures Required" ∧
    (LRHC.determine_required_measures tbl (some y) (some t) choice).2.1.matched_row =
      none ∧
    LRHC.determine_required_measures tbl (some y) (some t) choice =
      LRHC.determine_required_measures tbl2 (some y) (some t) choice := by
  unfold LRHC.determine_required_measures
  dsimp only
  simp only [if_pos h]
  refine ⟨?_, ?_, ?_, ?_, ?_, ?_⟩ <;> trivial

/-- Witness for C6 at t_control = 110 mm (tables [] and [row] agree). -/
theorem determine_required_measures_gt100_forces_required_witness :
    (LRHC.determine_required_measures [] (some 355) (some 110) choiceBlockShift).1 =
      LRHC.RequiredMeasures.allRequired ∧
    ((LRHC.determine_required_measures [] (some 355) (some 110) choiceBlockShift).2.2.map
      (·.flag_id)) = ["thickness_gt100"] ∧
    ((LRHC.determine_required_measures [] (some 355) (some 110) choiceBlockShift).2.2.map
      (·.category)) = ["special_consideration"] ∧
    (LRHC.determine_required_measures [] (some 355) (some 110) choiceBlockShift).2.1.special =
      some "thickness > 100mm → all measures Required" ∧
    (LRHC.determine_required_measures [] (some 355) (some 110)
        choiceBlockShift).2.1.matched_row = none ∧
    LRHC.determine_required_measures [] (some 355) (some 110) choiceBlockShift =
      LRHC.determine_required_measures [rowM2Note2] (some 355) (some 110) choiceBlockShift :=
  determine_required_measures_gt100_forces_required [] [rowM2Note2] choiceBlockShift
    355 110 (by norm_num)

/-- C8: the Table 8.2.1 lookup returns a row only when that row is in the
table, its yield equals the requested yield, and t lies in the row's range
(t_min exclusive, t_max inclusive), a row with t_min = 0 also matching
whenever t ≤ t_max; on the empty table it returns none without error. -/
theorem lookup_table_821_only_matching_rows
    (tbl : List LRHC.Table821Row) (y : ℤ) (t : ℚ) :
    (∀ row : LRHC.Table821Row, LRHC.lookup_table_821 tbl y t = some row →
      row ∈ tbl ∧ row.yield_strength_nmm2 = y ∧
      ((row.t_min_mm < t ∧ t ≤ row.t_max_mm) ∨
       (row.t_min_mm = 0 ∧ t ≤ row.t_max_mm))) ∧
    LRHC.lookup_table_821 [] y t = none := by
  refine ⟨?_, rfl⟩
  induction tbl with
  | nil => intro row h; cases h
  | cons r rest ih =>
    intro row h
    rw [LRHC.lookup_table_821] at h
    by_cases h1 : r.yield_strength_nmm2 = y
    · rw [if_pos h1] at h
      by_cases h2 : r.t_min_mm < t ∧ t ≤ r.t_max_mm
      · rw [if_pos h2] at h
        cases h
        exact ⟨List.mem_cons_self _ _, h1, Or.inl h2⟩
      · rw [if_neg h2] at h
        by_cases h3 : r.t_min_mm = 0 ∧ t ≤ r.t_max_mm
        · rw [if_pos h3] at h
          cases h
          exact ⟨List.mem_cons_self _ _, h1, Or.inr h3⟩
        · rw [if_neg h3] at h
          obtain ⟨hm, hrest⟩ := ih row h
          exact ⟨List.mem_cons_of_mem _ hm, hrest⟩
    · rw [if_neg h1] at h
      obtain ⟨hm, hrest⟩ := ih row h
      exact ⟨List.mem_cons_of_mem _ hm, hrest⟩

/-- Witness for C8: the concrete lookup (yield 355, t = 60) hits the
50–65 row and satisfies the stated bounds. -/
theorem lookup_table_821_only_matching_rows_witness :
    rowM2Note2 ∈ [rowM2Note2] ∧ rowM2Note2.yield_strength_nmm2 = 355 ∧
    ((rowM2Note2.t_min_mm < 60 ∧ (60 : ℚ) ≤ rowM2Note2.t_max_mm) ∨
     (rowM2Note2.t_min_mm = 0 ∧ (60 : ℚ) ≤ rowM2Note2.t_max_mm)) :=
  (lookup_table_821_only_matching_rows [rowM2Note2] 355 60).1 rowM2Note2 (by decide)

/-- C2 counterexample: with a matched row whose measure-2 cell literally
says Required and the Measure-3 choice block_shift (so not enhanced_NDE),
the recorded measure-2 status is `required` — not `conditional` and not
`not_required` — and with a See-Note-2 row and choice block_shift the
status is `not_required`; the engine's `MeasureStatus` has no
"not_applicable" value at all, so the claimed status never occurs. -/
theorem measure2_gating_counterexample :
    (LRHC.determine_required_measures [rowM2Required] (some 355) (some 60)
        choiceBlockShift).1.r2 = LRHC.MeasureStatus.required ∧
    LRHC.MeasureStatus.required ≠ LRHC.MeasureStatus.conditional ∧
    LRHC.MeasureStatus.required ≠ LRHC.MeasureStatus.not_required ∧
    (LRHC.determine_required_measures [rowM2Note2] (some 355) (some 60)
        choiceBlockShift).1.r2 = LRHC.MeasureStatus.not_required := by
  refine ⟨?_, by decide, by decide, ?_⟩ <;> rfl

/-- C2 (amended): for every table, choice and numeric control pair with
t ≤ 100 whose lookup (direct or yield-fallback) matches a row: when the
row's measure-2 cell is See Note 2, the global measure-2 status is
`conditional` iff the Measure-3 choice is enhanced_NDE and `not_required`
otherwise; for any other cell value the cell's status is recorded
verbatim (in particular a Required cell yields `required`, there is no
"not_applicable" outcome). -/
theorem measure2_note2_gating (tbl : List LRHC.Table821Row)
    (choice : LRHC.Measure3Choice) (y : ℤ) (t : ℚ) (row : LRHC.Table821Row)
    (ht : ¬ t > 100) (hrow : LRHC.effectiveRow tbl y t = some row) :
    (row.measure_2.status = LRHC.MeasureStatus.see_note_2 →
      ((LRHC.determine_required_measures tbl (some y) (some t) choice).1.r2 =
          LRHC.MeasureStatus.conditional ↔
        choice.option = LRHC.Measure3Option.enhanced_NDE) ∧
      (choice.option ≠ LRHC.Measure3Option.enhanced_NDE →
        (LRHC.determine_required_measures tbl (some y) (some t) choice).1.r2 =
          LRHC.MeasureStatus.not_required)) ∧
    (row.measure_2.status ≠ LRHC.MeasureStatus.see_note_2 →
      (LRHC.determine_required_measures tbl (some y) (some t) choice).1.r2 =
        row.measure_2.status) := by
  have hr2 := LRHC.determine_r2_eq tbl choice y t row ht hrow
  rw [hr2, LRHC.buildRowResult_r2]
  constructor
  · intro hsee
    rw [if_pos hsee]
    constructor
    · by_cases hopt : choice.option = LRHC.Measure3Option.enhanced_NDE
      · rw [if_pos hopt]
        exact ⟨fun _ => hopt, fun _ => rfl⟩
      · rw [if_neg hopt]
        exact ⟨fun h => absurd h (by decide), fun h => absurd h hopt⟩
    · intro hopt
      rw [if_neg hopt]
  · intro hsee
    rw [if_neg hsee]

/-- Witness for C2 (amended): See-Note-2 row with enhanced_NDE yields
conditional; Required cell with block_shift yields required. -/
theorem measure2_note2_gating_witness :
    (LRHC.determine_required_measures [rowM2Note2] (some 355) (some 60)
        choiceEnhancedNDE).1.r2 = LRHC.MeasureStatus.conditional ∧
    (LRHC.determine_required_measures [rowM2Required] (some 355) (some 60)
        choiceBlockShift).1.r2 = rowM2Required.measure_2.status := by
  constructor
  · exact ((measure2_note2_gating [rowM2Note2] choiceEnhancedNDE 355 60 rowM2Note2
      (by norm_num) (by decide)).1 (by decide)).1.mpr rfl
  · exact (measure2_note2_gating [rowM2Required] choiceBlockShift 355 60 rowM2Required
      (by norm_num) (by decide)).2 (by decide)

/-- Minimal pipeline input used by the C1 witness. -/
def pipeInpA : LRHC.PipelineInput :=
  { project_meta := { project_id := "P-1" },
    members :=
      [{ member_id := "SIDE-01",
         member_role := LRHC.MemberRole.hatch_coaming_side_plate,
         yield_strength_nmm2 := some 355, thickness_mm_as_built := some 55,
         zone := LRHC.Zone.cargo_hold_region }],
    joints :=
      [{ joint_id := "J-1", joint_type := LRHC.JointType.block_to_block_butt,
         connected_members := ["SIDE-01"],
         zone := LRHC.Zone.cargo_hold_region }] }

def amMemberX : Svc.AppliedMeasure :=
  { measure_id := 2, status := Svc.DecisionStatus.applied,
    target_id := "X", target_type := Svc.TargetType.member,
    requirements := ["r1"], notes := ["n1"] }

def amJointX : Svc.AppliedMeasure :=
  { measure_id := 2, status := Svc.DecisionStatus.conditional,
    target_id := "X", target_type := Svc.TargetType.joint,
    requirements := ["r2"], notes := ["n2"] }

/-- C1: the decision pipeline is a pure function — running it twice on the
identical input yields the identical applications list — and the
accumulator's insert for a key already present merges (same length, same
keys, no duplicate entry); re-inserting the very same record is a no-op. -/
theorem pipeline_idempotent_and_merge_no_duplicate
    (inp : LRHC.PipelineInput) (t821 : List LRHC.Table821Row)
    (t822 : List LRHC.Table822Entry)
    (rs : List Svc.AppliedMeasure) (m : Svc.AppliedMeasure) :
    LRHC.pipelineApplications inp t821 t822 = LRHC.pipelineApplications inp t821 t822 ∧
    (Svc.hasKey rs m.measure_id m.target_id →
      (Svc.append_measure rs m).length = rs.length ∧
      (Svc.append_measure rs m).map Svc.amKey = rs.map Svc.amKey) ∧
    Svc.append_measure (Svc.append_measure rs m) m = Svc.append_measure rs m :=
  ⟨rfl,
   fun h => ⟨Svc.length_append_measure_of_hasKey rs m h,
             Svc.keys_append_measure_of_hasKey rs m h⟩,
   Svc.append_measure_idem rs m⟩

/-- Witness for C1: a concrete re-insert with an existing key keeps the
list length and keys unchanged. -/
theorem pipeline_idempotent_and_merge_no_duplicate_witness :
    LRHC.pipelineApplications pipeInpA [rowM2Note2] [] =
      LRHC.pipelineApplications pipeInpA [rowM2Note2] [] ∧
    ((Svc.append_measure [amMemberX] amJointX).length = [amMemberX].length ∧
     (Svc.append_measure [amMemberX] amJointX).map Svc.amKey =
       [amMemberX].map Svc.amKey) ∧
    Svc.append_measure (Svc.append_measure [amMemberX] amJointX) amJointX =
      Svc.append_measure [amMemberX] amJointX := by
  have h := pipeline_idempotent_and_merge_no_duplicate pipeInpA [rowM2Note2] []
    [amMemberX] amJointX
  exact ⟨h.1, h.2.1 (by decide), h.2.2⟩

/-- C10: the accumulator's merge keys records by (measure_id, target_id)
only, ignoring target_type — inserting a record whose key matches an
already-present record of the other target type merges instead of adding
a second entry (length and keys unchanged). -/
theorem append_measure_ignores_target_type
    (rs : List Svc.AppliedMeasure) (a b : Svc.AppliedMeasure)
    (hm : a.measure_id = b.measure_id) (ht : a.target_id = b.target_id)
    (_htt : a.target_type ≠ b.target_type) :
    (Svc.append_measure (Svc.append_measure rs a) b).length =
      (Svc.append_measure rs a).length ∧
    (Svc.append_measure (Svc.append_measure rs a) b).map Svc.amKey =
      (Svc.append_measure rs a).map Svc.amKey := by
  have hk : Svc.hasKey (Svc.append_measure rs a) b.measure_id b.target_id := by
    have h0 := Svc.hasKey_self_append_measure rs a
    rw [hm, ht] at h0
    exact h0
  exact ⟨Svc.length_append_measure_of_hasKey _ b hk,
         Svc.keys_append_measure_of_hasKey _ b hk⟩

/-- Witness for C10: a member record and a joint record sharing id "X" and
measure 2 never yield two entries. -/
theorem append_measure_ignores_target_type_witness :
    (Svc.append_measure (Svc.append_measure [] amMemberX) amJointX).length =
      (Svc.append_measure [] amMemberX).length ∧
    (Svc.append_measure (Svc.append_measure [] amMemberX) amJointX).map Svc.amKey =
      (Svc.append_measure [] amMemberX).map Svc.amKey :=
  append_measure_ignores_target_type [] amMemberX amJointX (by decide) (by decide)
    (by decide)


/-- Case equations for the t_control branch. -/
theorem Svc.deriveT_some_some (a : Svc.ScanAcc) (s t : ℚ)
    (hs : a.side_t = some s) (ht : a.top_t = some t) :
    Svc.deriveT a = (some (max s t), []) := by
  unfold Svc.deriveT
  rw [hs, ht]

theorem Svc.deriveT_some_none (a : Svc.ScanAcc) (s : ℚ)
    (hs : a.side_t = some s) (ht : a.top_t = none) :
    Svc.deriveT a = (some s,
      [{ flag_id := "CTRL-T-01",
         description := "Hatch coaming top plate thickness is 미지정; t_control based on side plate only." }]) := by
  unfold Svc.deriveT
  rw [hs, ht]

theorem Svc.deriveT_none_some (a : Svc.ScanAcc) (t : ℚ)
    (hs : a.side_t = none) (ht : a.top_t = some t) :
    Svc.deriveT a = (some t,
      [{ flag_id := "CTRL-T-02",
         description := "Hatch coaming side plate thickness is 미지정; t_control based on top plate only." }]) := by
  unfold Svc.deriveT
  rw [hs, ht]

theorem Svc.deriveT_none_none (a : Svc.ScanAcc)
    (hs : a.side_t = none) (ht : a.top_t = none) :
    Svc.deriveT a = (none,
      [{ flag_id := "CTRL-T-03",
         description := "Both coaming side and top plate thicknesses are 미지정; t_control cannot be determined.",
         severity := some "error" }]) := by
  unfold Svc.deriveT
  rw [hs, ht]

/-- Case equations for the y_control branch. -/
theorem Svc.deriveY_some_some (a : Svc.ScanAcc) (s t : ℚ)
    (hs : a.side_y = some s) (ht : a.top_y = some t) :
    Svc.deriveY a = (some (max s t),
      if s ≠ t then
        [{ flag_id := "CTRL-Y-01",
           description := "Coaming side yield (" ++ pyFloatStr s ++ ") != top yield (" ++
             pyFloatStr t ++ "). Using max=" ++ pyFloatStr (max s t) ++ ". Review required." }]
      else []) := by
  unfold Svc.deriveY
  rw [hs, ht]

theorem Svc.deriveY_some_none (a : Svc.ScanAcc) (s : ℚ)
    (hs : a.side_y = some s) (ht : a.top_y = none) :
    Svc.deriveY a = (some s,
      [{ flag_id := "CTRL-Y-02",
         description := "Hatch coaming top plate yield is 미지정; y_control based on side plate only." }]) := by
  unfold Svc.deriveY
  rw [hs, ht]

theorem Svc.deriveY_none_some (a : Svc.ScanAcc) (t : ℚ)
    (hs : a.side_y = none) (ht : a.top_y = some t) :
    Svc.deriveY a = (some t,
      [{ flag_id := "CTRL-Y-03",
         description := "Hatch coaming side plate yield is 미지정; y_control based on top plate only." }]) := by
  unfold Svc.deriveY
  rw [hs, ht]

theorem Svc.deriveY_none_none (a : Svc.ScanAcc)
    (hs : a.side_y = none) (ht : a.top_y = none) :
    Svc.deriveY a = (none,
      [{ flag_id := "CTRL-Y-04",
         description := "Both coaming yield strengths are 미지정; y_control cannot be determined.",
         severity := some "error" }]) := by
  unfold Svc.deriveY
  rw [hs, ht]

/-- C4: control-parameter derivation follows the three-way rule — both
plate thicknesses known: t_control = max; exactly one known: that value
plus a "partial" flag (CTRL-T-01/02), so a single-plate t_control never
comes without a flag; none known: sentinel plus the blocking CTRL-T-03
flag (severity error); y_control the same (CTRL-Y-02/03/04), with the
additional non-fatal CTRL-Y-01 yield-mismatch flag whenever both yields
are known and unequal while the max is still used. -/
theorem derive_control_values_three_way (project : Svc.ProjectInput) :
    (∀ s t : ℚ, (Svc.scanMembers project.members).side_t = some s →
      (Svc.scanMembers project.members).top_t = some t →
      (Svc.derive_control_values project).1.t_control_mm = some (max s t)) ∧
    (∀ s : ℚ, (Svc.scanMembers project.members).side_t = some s →
      (Svc.scanMembers project.members).top_t = none →
      (Svc.derive_control_values project).1.t_control_mm = some s ∧
      ∃ f ∈ (Svc.derive_control_values project).2, f.flag_id = "CTRL-T-01") ∧
    (∀ t : ℚ, (Svc.scanMembers project.members).side_t = none →
      (Svc.scanMembers project.members).top_t = some t →
      (Svc.derive_control_values project).1.t_control_mm = some t ∧
      ∃ f ∈ (Svc.derive_control_values project).2, f.flag_id = "CTRL-T-02") ∧
    ((Svc.scanMembers project.members).side_t = none →
      (Svc.scanMembers project.members).top_t = none →
      (Svc.derive_control_values project).1.t_control_mm = none ∧
      ∃ f ∈ (Svc.derive_control_values project).2,
        f.flag_id = "CTRL-T-03" ∧ f.severity = some "error") ∧
    (∀ s t : ℚ, (Svc.scanMembers project.members).side_y = some s →
      (Svc.scanMembers project.members).top_y = some t →
      (Svc.derive_control_values project).1.y_control_nmm2 = some (max s t) ∧
      (s ≠ t → ∃ f ∈ (Svc.derive_control_values project).2, f.flag_id = "CTRL-Y-01")) ∧
    (∀ s : ℚ, (Svc.scanMembers project.members).side_y = some s →
      (Svc.scanMembers project.members).top_y = none →
      (Svc.derive_control_values project).1.y_control_nmm2 = some s ∧
      ∃ f ∈ (Svc.derive_control_values project).2, f.flag_id = "CTRL-Y-02") ∧
    (∀ t : ℚ, (Svc.scanMembers project.members).side_y = none →
      (Svc.scanMembers project.members).top_y = some t →
      (Svc.derive_control_values project).1.y_control_nmm2 = some t ∧
      ∃ f ∈ (Svc.derive_control_values project).2, f.flag_id = "CTRL-Y-03") ∧
    ((Svc.scanMembers project.members).side_y = none →
      (Svc.scanMembers project.members).top_y = none →
      (Svc.derive_control_values project).1.y_control_nmm2 = none ∧
      ∃ f ∈ (Svc.derive_control_values project).2,
        f.flag_id = "CTRL-Y-04" ∧ f.severity = some "error") := by
  have hcv1t : (Svc.derive_control_values project).1.t_control_mm =
      (Svc.deriveT (Svc.scanMembers project.members)).1 := rfl
  have hcv1y : (Svc.derive_control_values project).1.y_control_nmm2 =
      (Svc.deriveY (Svc.scanMembers project.members)).1 := rfl
  have hcv2 : (Svc.derive_control_values project).2 =
      (Svc.deriveT (Svc.scanMembers project.members)).2 ++
      (Svc.deriveY (Svc.scanMembers project.members)).2 := rfl
  refine ⟨?_, ?_, ?_, ?_, ?_, ?_, ?_, ?_⟩
  · intro s t hs ht
    rw [hcv1t, Svc.deriveT_some_some _ s t hs ht]
  · intro s hs ht
    rw [hcv1t, hcv2, Svc.deriveT_some_none _ s hs ht]
    exact ⟨rfl, ⟨_, List.mem_append_left _ (List.mem_singleton.mpr rfl), rfl⟩⟩
  · intro t hs ht
    rw [hcv1t, hcv2, Svc.deriveT_none_some _ t hs ht]
    exact ⟨rfl, ⟨_, List.mem_append_left _ (List.mem_singleton.mpr rfl), rfl⟩⟩
  · intro hs ht
    rw [hcv1t, hcv2, Svc.deriveT_none_none _ hs ht]
    exact ⟨rfl, ⟨_, List.mem_append_left _ (List.mem_singleton.mpr rfl), rfl, rfl⟩⟩
  · intro s t hs ht
    rw [hcv1y, hcv2, Svc.deriveY_some_some _ s t hs ht]
    refine ⟨rfl, fun hne => ?_⟩
    rw [if_pos hne]
    exact ⟨_, List.mem_append_right _ (List.mem_singleton.mpr rfl), rfl⟩
  · intro s hs ht
    rw [hcv1y, hcv2, Svc.deriveY_some_none _ s hs ht]
    exact ⟨rfl, ⟨_, List.mem_append_right _ (List.mem_singleton.mpr rfl), rfl⟩⟩
  · intro t hs ht
    rw [hcv1y, hcv2, Svc.deriveY_none_some _ t hs ht]
    exact ⟨rfl, ⟨_, List.mem_append_right _ (List.mem_singleton.mpr rfl), rfl⟩⟩
  · intro hs ht
    rw [hcv1y, hcv2, Svc.deriveY_none_none _ hs ht]
    exact ⟨rfl, ⟨_, List.mem_append_right _ (List.mem_singleton.mpr rfl), rfl, rfl⟩⟩

/-- Project fixture for the C4 witness: side plate 90 mm / 390, top plate
85 mm / 460 (scenario B of the spec). -/
def projSideTop : Svc.ProjectInput :=
  { project_meta := { project_id := "P-B" },
    members :=
      [{ member_id := "SIDE-01",
         member_role := Svc.MemberRole.hatch_coaming_side_plate,
         zone := some Svc.Zone.cargo_hold_region,
         yield_strength_nmm2 := some 390, thickness_mm_as_built := some 90 },
       { member_id := "TOP-01",
         member_role := Svc.MemberRole.hatch_coaming_top_plate,
         zone := some Svc.Zone.cargo_hold_region,
         yield_strength_nmm2 := some 460, thickness_mm_as_built := some 85 }] }

/-- Witness for C4: both thicknesses known gives the max; unequal yields
give the max plus the CTRL-Y-01 mismatch flag. -/
theorem derive_control_values_three_way_witness :
    (Svc.derive_control_values projSideTop).1.t_control_mm = some (max 90 85) ∧
    (Svc.derive_control_values projSideTop).1.y_control_nmm2 =
      some (max (390 : ℚ) 460) ∧
    ∃ f ∈ (Svc.derive_control_values projSideTop).2, f.flag_id = "CTRL-Y-01" := by
  have h := derive_control_values_three_way projSideTop
  refine ⟨h.1 90 85 rfl rfl, ?_, ?_⟩
  · exact (h.2.2.2.2.1 390 460 rfl rfl).1
  · exact (h.2.2.2.2.1 390 460 rfl rfl).2 (by norm_num)

/-- The spec's documented upper-flange role set as mapping configuration. -/
def mapUF : Svc.Mapping :=
  { upper_flange_long_member_roles :=
      [Svc.MemberRole.upper_deck_plate, Svc.MemberRole.hatch_coaming_side_plate,
       Svc.MemberRole.hatch_coaming_top_plate, Svc.MemberRole.attached_longitudinal] }

def memUp : Svc.MemberInput :=
  { member_id := "M-UP", member_role := Svc.MemberRole.upper_deck_plate }

def memUnknown : Svc.MemberInput :=
  { member_id := "M-X", member_role := Svc.MemberRole.unknown }

/-- A cargo-hold butt joint connected to one confirmed upper-flange member
and one unknown-role member. -/
def jointMixed : Svc.JointInput :=
  { joint_id := "J1", joint_type := Svc.JointType.block_to_block_butt,
    zone := some Svc.Zone.cargo_hold_region,
    connected_members := ["M-UP", "M-X"] }

def projMixed : Svc.ProjectInput :=
  { project_meta := { project_id := "P-C7" },
    members := [memUp, memUnknown], joints := [jointMixed] }

/-- A cargo-hold butt joint connected only to the unknown-role member. -/
def jointUnknownOnly : Svc.JointInput :=
  { joint_id := "J1", joint_type := Svc.JointType.block_to_block_butt,
    zone := some Svc.Zone.cargo_hold_region,
    connected_members := ["M-X"] }

def projUnknownOnly : Svc.ProjectInput :=
  { project_meta := { project_id := "P-C7b" },
    members := [memUp, memUnknown], joints := [jointUnknownOnly] }

/-- C7 counterexample: a cargo-hold block-to-block-butt joint one of whose
connected members has an unknown role is applied as Measure 1 `applied`
(because another connected member is confirmed upper-flange) — no
pending_manual_review record is emitted for it, contrary to the claim. -/
theorem measure1_unknown_role_counterexample :
    ((Svc.apply_measure_1 projMixed {} mapUF [] []).1.map
      (fun am => (am.target_id, am.status))) =
      [("J1", Svc.DecisionStatus.applied)] ∧
    (∀ am ∈ (Svc.apply_measure_1 projMixed {} mapUF [] []).1,
      am.status ≠ Svc.DecisionStatus.pending_manual_review) := by
  decide

/-- C7 (amended): for an in-scope cargo-hold block-to-block-butt joint
(distinct joint ids, key (1, joint) not already accumulated): when some
connected member is confirmed upper-flange the engine emits the `applied`
Measure-1 record — even if another connected member's role is unknown;
only when no connected member is confirmed and some connected member's
role is unknown does it emit the pending_manual_review record plus the
M1-…-ROLE flag (and a joint in scope with neither is skipped, not given a
record). -/
theorem apply_measure_1_unknown_role_handling
    (project : Svc.ProjectInput) (rules : Svc.RulesExtraction) (mapping : Svc.Mapping)
    (results : List Svc.AppliedMeasure) (flags : List Svc.ManualReviewFlag)
    (L₁ L₂ : List Svc.JointInput) (j : Svc.JointInput) (z : Svc.Zone)
    (hJ : project.joints = L₁ ++ j :: L₂)
    (hids : (project.joints.map (·.joint_id)).Nodup)
    (hkey : ¬ Svc.hasKey results 1 j.joint_id)
    (hz : j.zone = some z)
    (hjt : j.joint_type ∈ mapping.block_to_block_butt_types)
    (hzc : z ∈ mapping.cargo_hold_region_zones) :
    (Svc.connectedUpper project.members mapping.upper_flange_long_member_roles j = true →
      Svc.m1AppliedRecord (Svc.findClauseText rules ["block-to-block butt"])
          (Svc.findClauseEvidence rules
            ["Construction NDE", "UT", "100%", "block-to-block butt"]) z j ∈
        (Svc.apply_measure_1 project rules mapping results flags).1) ∧
    (Svc.connectedUpper project.members mapping.upper_flange_long_member_roles j = false →
      j.connected_members ≠ [] →
      Svc.anyUnknownRole project.members j = true →
      Svc.m1RoleRecord (Svc.findClauseText rules ["block-to-block butt"])
          (Svc.findClauseEvidence rules
            ["Construction NDE", "UT", "100%", "block-to-block butt"]) j ∈
        (Svc.apply_measure_1 project rules mapping results flags).1 ∧
      (Svc.m1RoleRecord (Svc.findClauseText rules ["block-to-block butt"])
          (Svc.findClauseEvidence rules
            ["Construction NDE", "UT", "100%", "block-to-block butt"]) j).status =
        Svc.DecisionStatus.pending_manual_review ∧
      Svc.m1RoleFlag j ∈ (Svc.apply_measure_1 project rules mapping results flags).2) := by
  have hsplit := Svc.joint_ids_split L₁ j L₂ (by rw [hJ] at hids; exact hids)
  obtain ⟨hL1, hL2⟩ := hsplit
  unfold Svc.apply_measure_1
  dsimp only
  rw [hJ, List.foldl_append, List.foldl_cons]
  have hk1 : ¬ Svc.hasKey
      (List.foldl (Svc.m1Step project.members mapping
        (Svc.findClauseText rules ["block-to-block butt"])
        (Svc.findClauseEvidence rules
          ["Construction NDE", "UT", "100%", "block-to-block butt"]))
        (results, flags) L₁).1 1 j.joint_id :=
    Svc.foldl_m1_not_hasKey _ _ _ _ L₁ (results, flags) j.joint_id hL1 hkey
  constructor
  · intro hcu
    have hstep : Svc.m1Step project.members mapping
        (Svc.findClauseText rules ["block-to-block butt"])
        (Svc.findClauseEvidence rules
          ["Construction NDE", "UT", "100%", "block-to-block butt"])
        (List.foldl (Svc.m1Step project.members mapping
          (Svc.findClauseText rules ["block-to-block butt"])
          (Svc.findClauseEvidence rules
            ["Construction NDE", "UT", "100%", "block-to-block butt"]))
          (results, flags) L₁) j =
        (Svc.append_measure (List.foldl (Svc.m1Step project.members mapping
          (Svc.findClauseText rules ["block-to-block butt"])
          (Svc.findClauseEvidence rules
            ["Construction NDE", "UT", "100%", "block-to-block butt"]))
          (results, flags) L₁).1
          (Svc.m1AppliedRecord (Svc.findClauseText rules ["block-to-block butt"])
            (Svc.findClauseEvidence rules
              ["Construction NDE", "UT", "100%", "block-to-block butt"]) z j),
         (List.foldl (Svc.m1Step project.members mapping
          (Svc.findClauseText rules ["block-to-block butt"])
          (Svc.findClauseEvidence rules
            ["Construction NDE", "UT", "100%", "block-to-block butt"]))
          (results, flags) L₁).2) := by
      unfold Svc.m1Step
      rw [hz]
      dsimp only
      rw [if_neg (not_not_intro hjt), if_neg (not_not_intro hzc), if_pos hcu]
    rw [hstep]
    refine Svc.foldl_m1_mem_preserved _ _ _ _ L₂ _ _ hL2 ?_
    exact Svc.mem_self_append_measure _ _ hk1
  · intro hcu hcm hunk
    have hcu' : ¬ (Svc.connectedUpper project.members
        mapping.upper_flange_long_member_roles j = true) := by
      rw [hcu]
      exact Bool.false_ne_true
    have hstep : Svc.m1Step project.members mapping
        (Svc.findClauseText rules ["block-to-block butt"])
        (Svc.findClauseEvidence rules
          ["Construction NDE", "UT", "100%", "block-to-block butt"])
        (List.foldl (Svc.m1Step project.members mapping
          (Svc.findClauseText rules ["block-to-block butt"])
          (Svc.findClauseEvidence rules
            ["Construction NDE", "UT", "100%", "block-to-block butt"]))
          (results, flags) L₁) j =
        (Svc.append_measure (List.foldl (Svc.m1Step project.members mapping
          (Svc.findClauseText rules ["block-to-block butt"])
          (Svc.findClauseEvidence rules
            ["Construction NDE", "UT", "100%", "block-to-block butt"]))
          (results, flags) L₁).1
          (Svc.m1RoleRecord (Svc.findClauseText rules ["block-to-block butt"])
            (Svc.findClauseEvidence rules
              ["Construction NDE", "UT", "100%", "block-to-block butt"]) j),
         (List.foldl (Svc.m1Step project.members mapping
          (Svc.findClauseText rules ["block-to-block butt"])
          (Svc.findClauseEvidence rules
            ["Construction NDE", "UT", "100%", "block-to-block butt"]))
          (results, flags) L₁).2 ++ [Svc.m1RoleFlag j]) := by
      unfold Svc.m1Step
      rw [hz]
      dsimp only
      rw [if_neg (not_not_intro hjt), if_neg (not_not_intro hzc), if_neg hcu',
        if_pos ⟨hcm, hunk⟩]
    rw [hstep]
    refine ⟨?_, rfl, ?_⟩
    · refine Svc.foldl_m1_mem_preserved _ _ _ _ L₂ _ _ hL2 ?_
      exact Svc.mem_self_append_measure _ _ hk1
    · refine Svc.foldl_m1_flags_preserved _ _ _ _ L₂ _ _ ?_
      exact List.mem_append_right _ (List.mem_singleton.mpr rfl)

/-- Witness for C7 (amended): the joint connected only to the unknown-role
member gets the pending_manual_review record and the M1-J1-ROLE flag. -/
theorem apply_measure_1_unknown_role_handling_witness :
    Svc.m1RoleRecord (Svc.findClauseText {} ["block-to-block butt"])
        (Svc.findClauseEvidence {}
          ["Construction NDE", "UT", "100%", "block-to-block butt"]) jointUnknownOnly ∈
      (Svc.apply_measure_1 projUnknownOnly {} mapUF [] []).1 ∧
    (Svc.m1RoleRecord (Svc.findClauseText {} ["block-to-block butt"])
        (Svc.findClauseEvidence {}
          ["Construction NDE", "UT", "100%", "block-to-block butt"])
        jointUnknownOnly).status = Svc.DecisionStatus.pending_manual_review ∧
    Svc.m1RoleFlag jointUnknownOnly ∈ (Svc.apply_measure_1 projUnknownOnly {} mapUF [] []).2 :=
  (apply_measure_1_unknown_role_handling projUnknownOnly {} mapUF [] [] [] []
      jointUnknownOnly Svc.Zone.cargo_hold_region rfl (by decide) (by decide) rfl
      (by decide) (by decide)).2 (by decide) (by decide) (by decide)

/-- C9: under the enhanced-NDE option (default thresholds: CTOD minimum
0.18 mm, EGW not permitted), every in-scope block-to-block-butt joint gets
a record requiring CTOD ≥ 0.18 mm and the stricter ShipRight acceptance
criteria; the record's status degrades to `conditional` exactly when the
acceptance-criteria reference is 미지정 (else `applied`); and an EGW joint
additionally gets the NONCOMPLIANCE note and the severity-error
M3-EGW-… flag. -/
theorem apply_m3_enhanced_nde_requirements
    (project : Svc.ProjectInput) (rules : Svc.RulesExtraction) (mapping : Svc.Mapping)
    (params : Svc.Measure3Parameters)
    (results : List Svc.AppliedMeasure) (flags : List Svc.ManualReviewFlag)
    (L₁ L₂ : List Svc.JointInput) (j : Svc.JointInput)
    (hJ : project.joints = L₁ ++ j :: L₂)
    (hids : (project.joints.map (·.joint_id)).Nodup)
    (hkey : ¬ Svc.hasKey results 3 j.joint_id)
    (hbutt : j.joint_type = Svc.JointType.block_to_block_butt)
    (hctod : mapping.ctod_min_mm = mkRat 18 100)
    (hegw : mapping.egw_permitted_with_enhanced_nde = false) :
    Svc.m3EnhRecord mapping params
        (Svc.findClauseText rules ["enhanced NDE", "CTOD", "EGW"])
        (Svc.findClauseEvidence rules ["enhanced NDE", "CTOD", "EGW"]) j ∈
      (Svc.apply_m3_enhanced_nde project rules mapping params results flags).1 ∧
    "CTOD >= 0.18 mm required" ∈
      (Svc.m3EnhRecord mapping params
        (Svc.findClauseText rules ["enhanced NDE", "CTOD", "EGW"])
        (Svc.findClauseEvidence rules ["enhanced NDE", "CTOD", "EGW"]) j).requirements ∧
    "Stricter acceptance criteria per ShipRight procedure apply" ∈
      (Svc.m3EnhRecord mapping params
        (Svc.findClauseText rules ["enhanced NDE", "CTOD", "EGW"])
        (Svc.findClauseEvidence rules ["enhanced NDE", "CTOD", "EGW"]) j).requirements ∧
    (Svc.m3EnhRecord mapping params
        (Svc.findClauseText rules ["enhanced NDE", "CTOD", "EGW"])
        (Svc.findClauseEvidence rules ["enhanced NDE", "CTOD", "EGW"]) j).status =
      (if params.enhanced_nde_acceptance_criteria_ref = "미지정" then
        Svc.DecisionStatus.conditional
      else Svc.DecisionStatus.applied) ∧
    (j.weld_process = Svc.WeldProcess.EGW →
      "NONCOMPLIANCE: EGW process used but NOT permitted with enhanced NDE" ∈
        (Svc.m3EnhRecord mapping params
          (Svc.findClauseText rules ["enhanced NDE", "CTOD", "EGW"])
          (Svc.findClauseEvidence rules ["enhanced NDE", "CTOD", "EGW"]) j).notes ∧
      Svc.m3EgwFlag j ∈
        (Svc.apply_m3_enhanced_nde project rules mapping params results flags).2 ∧
      (Svc.m3EgwFlag j).severity = some "error") := by
  obtain ⟨hL1, hL2⟩ := Svc.joint_ids_split L₁ j L₂ (by rw [hJ] at hids; exact hids)
  have hstr : Svc.pyNumStr (mkRat 18 100) = "0.18" := by decide
  have hegwNe : ¬ (mapping.egw_permitted_with_enhanced_nde = true) := by
    rw [hegw]
    exact Bool.false_ne_true
  unfold Svc.apply_m3_enhanced_nde
  dsimp only
  rw [hJ, List.foldl_append, List.foldl_cons]
  have hk3 : ¬ Svc.hasKey
      (List.foldl (Svc.m3EnhStep mapping params
        (Svc.findClauseText rules ["enhanced NDE", "CTOD", "EGW"])
        (Svc.findClauseEvidence rules ["enhanced NDE", "CTOD", "EGW"]))
        (results, flags) L₁).1 3 j.joint_id :=
    Svc.foldl_m3Enh_not_hasKey _ _ _ _ L₁ (results, flags) j.joint_id hL1 hkey
  have hfst : (Svc.m3EnhStep mapping params
      (Svc.findClauseText rules ["enhanced NDE", "CTOD", "EGW"])
      (Svc.findClauseEvidence rules ["enhanced NDE", "CTOD", "EGW"])
      (List.foldl (Svc.m3EnhStep mapping params
        (Svc.findClauseText rules ["enhanced NDE", "CTOD", "EGW"])
        (Svc.findClauseEvidence rules ["enhanced NDE", "CTOD", "EGW"]))
        (results, flags) L₁) j).1 =
      Svc.append_measure (List.foldl (Svc.m3EnhStep mapping params
        (Svc.findClauseText rules ["enhanced NDE", "CTOD", "EGW"])
        (Svc.findClauseEvidence rules ["enhanced NDE", "CTOD", "EGW"]))
        (results, flags) L₁).1
        (Svc.m3EnhRecord mapping params
          (Svc.findClauseText rules ["enhanced NDE", "CTOD", "EGW"])
          (Svc.findClauseEvidence rules ["enhanced NDE", "CTOD", "EGW"]) j) := by
    unfold Svc.m3EnhStep
    rw [if_pos hbutt]
  refine ⟨?_, ?_, ?_, ?_, ?_⟩
  · refine Svc.foldl_m3Enh_mem_preserved _ _ _ _ L₂ _ _ hL2 ?_
    rw [hfst]
    exact Svc.mem_self_append_measure _ _ hk3
  · show _ ∈ Svc.m3EnhReqs mapping params
    unfold Svc.m3EnhReqs
    rw [hctod, hstr]
    exact List.mem_cons_of_mem _ (List.mem_cons_of_mem _ (List.mem_cons_self _ _))
  · show _ ∈ Svc.m3EnhReqs mapping params
    unfold Svc.m3EnhReqs
    exact List.mem_cons_of_mem _ (List.mem_cons_self _ _)
  · rfl
  · intro hwp
    have hbad : j.weld_process = Svc.WeldProcess.EGW ∧
        ¬ (mapping.egw_permitted_with_enhanced_nde = true) := ⟨hwp, hegwNe⟩
    refine ⟨?_, ?_, rfl⟩
    · unfold Svc.m3EnhRecord
      dsimp only
      rw [if_pos hbad]
      exact List.mem_append_right _ (List.mem_singleton.mpr rfl)
    · refine Svc.foldl_m3Enh_flags_preserved _ _ _ _ L₂ _ _ ?_
      unfold Svc.m3EnhStep
      rw [if_pos hbutt]
      dsimp only
      rw [if_pos hbad]
      exact List.mem_append_right _ (List.mem_singleton.mpr rfl)

/-- Fixture for the C9 witness: an EGW block-to-block-butt joint with the
acceptance-criteria reference left 미지정. -/
def jointEgw : Svc.JointInput :=
  { joint_id := "J-E", joint_type := Svc.JointType.block_to_block_butt,
    zone := some Svc.Zone.cargo_hold_region,
    connected_members := ["M-UP"], weld_process := Svc.WeldProcess.EGW }

def projEgw : Svc.ProjectInput :=
  { project_meta := { project_id := "P-C9" },
    members := [memUp], joints := [jointEgw] }

/-- Witness for C9 at the concrete EGW joint (default mapping, unspecified
acceptance-criteria reference). -/
theorem apply_m3_enhanced_nde_requirements_witness :
    Svc.m3EnhRecord {} {}
        (Svc.findClauseText {} ["enhanced NDE", "CTOD", "EGW"])
        (Svc.findClauseEvidence {} ["enhanced NDE", "CTOD", "EGW"]) jointEgw ∈
      (Svc.apply_m3_enhanced_nde projEgw {} {} {} [] []).1 ∧
    "CTOD >= 0.18 mm required" ∈
      (Svc.m3EnhRecord {} {}
        (Svc.findClauseText {} ["enhanced NDE", "CTOD", "EGW"])
        (Svc.findClauseEvidence {} ["enhanced NDE", "CTOD", "EGW"]) jointEgw).requirements ∧
    "NONCOMPLIANCE: EGW process used but NOT permitted with enhanced NDE" ∈
      (Svc.m3EnhRecord {} {}
        (Svc.findClauseText {} ["enhanced NDE", "CTOD", "EGW"])
        (Svc.findClauseEvidence {} ["enhanced NDE", "CTOD", "EGW"]) jointEgw).notes ∧
    Svc.m3EgwFlag jointEgw ∈ (Svc.apply_m3_enhanced_nde projEgw {} {} {} [] []).2 ∧
    (Svc.m3EgwFlag jointEgw).severity = some "error" := by
  have h := apply_m3_enhanced_nde_requirements projEgw {} {} {} [] [] [] [] jointEgw
    rfl (by decide) (by decide) rfl rfl rfl
  exact ⟨h.1, h.2.1, (h.2.2.2.2 rfl).1, (h.2.2.2.2 rfl).2.1, (h.2.2.2.2 rfl).2.2⟩

/-- C3 (amended): for every `DecisionResults` produced by the engine, the
applications list is strictly sorted by `(target_id, measure_id)` — the
sort key omits `target_type` — and in particular contains no two records
with the same `(target_id, measure_id)` key. -/
theorem run_decision_sorted_by_target_then_measure
    (project : Svc.ProjectInput) (rules : Svc.RulesExtraction) (mapping : Svc.Mapping) :
    ((Svc.run_decision project rules mapping).applied_measures).Pairwise Svc.amLT := by
  unfold Svc.run_decision
  rcases hd : Svc.derive_control_values project with ⟨cv0, cvf⟩
  dsimp only
  cases hy : cv0.y_control_nmm2 with
  | none =>
    cases ht : cv0.t_control_mm with
    | none =>
      dsimp only
      exact Svc.pairwise_amLT_sortResults _
        (Svc.nodupKeys_apply_all_measures project rules mapping _ _ _)
    | some t =>
      dsimp only
      exact Svc.pairwise_amLT_sortResults _
        (Svc.nodupKeys_apply_all_measures project rules mapping _ _ _)
  | some y =>
    cases ht : cv0.t_control_mm with
    | none =>
      dsimp only
      exact Svc.pairwise_amLT_sortResults _
        (Svc.nodupKeys_apply_all_measures project rules mapping _ _ _)
    | some t =>
      rcases hlk : Svc.lookup_table_821 rules y t with ⟨r, lf⟩
      dsimp only
      cases r with
      | none =>
        exact Svc.pairwise_amLT_sortResults _
          (Svc.nodupKeys_apply_all_measures project rules mapping _ _ _)
      | some row =>
        exact Svc.pairwise_amLT_sortResults _
          (Svc.nodupKeys_apply_all_measures project rules mapping _ _ _)

/-- Fixtures for the C3 counterexample: a member id that sorts between the
two joint ids, with Measure 3 required (yield 390, 50 < t ≤ 65). -/
def cexRow : Svc.Table821Row :=
  { yield_strength_nmm2 := 390, thickness_range := "50 < t ≤ 65",
    thickness_min_exclusive := some 50, thickness_max_inclusive := some 65,
    cell := { m1 := Svc.MeasureStatus.not_required, m2 := Svc.MeasureStatus.not_required,
              m3 := Svc.MeasureStatus.required, m4 := Svc.MeasureStatus.not_required,
              m5 := Svc.MeasureStatus.not_required } }

def cexRules : Svc.RulesExtraction := { table_821 := [cexRow] }

def cexProject : Svc.ProjectInput :=
  { project_meta := { project_id := "P-C3" },
    members := [{ member_id := "A",
                  member_role := Svc.MemberRole.hatch_coaming_side_plate,
                  zone := some Svc.Zone.cargo_hold_region,
                  yield_strength_nmm2 := some 390,
                  thickness_mm_as_built := some 60 }],
    joints := [{ joint_id := "0",
                 joint_type := Svc.JointType.coaming_to_deck_connection,
                 zone := some Svc.Zone.cargo_hold_region,
                 connected_members := ["A"] },
               { joint_id := "B",
                 joint_type := Svc.JointType.block_to_block_butt,
                 zone := some Svc.Zone.cargo_hold_region,
                 connected_members := ["A"] }],
    measure3_choice := { option := Svc.Measure3Option.crack_arrest_hole } }

/-- Rank functions realising the two possible orders of `target_type`. -/
def ttRankMemberFirst : Svc.TargetType → ℕ
  | Svc.TargetType.member => 0
  | Svc.TargetType.joint => 1

def ttRankJointFirst : Svc.TargetType → ℕ
  | Svc.TargetType.joint => 0
  | Svc.TargetType.member => 1

/-- Strict lexicographic order on the composite key
`(target_type, target_id, measure_id)` for a given order of target types. -/
def amLTfull (rank : Svc.TargetType → ℕ) (a b : Svc.AppliedMeasure) : Prop :=
  rank a.target_type < rank b.target_type ∨
  (rank a.target_type = rank b.target_type ∧
    (a.target_id.data < b.target_id.data ∨
     (a.target_id = b.target_id ∧ a.measure_id < b.measure_id)))

instance (rank : Svc.TargetType → ℕ) : DecidableRel (amLTfull rank) := fun a b =>
  inferInstanceAs (Decidable (rank a.target_type < rank b.target_type ∨
    (rank a.target_type = rank b.target_type ∧
      (a.target_id.data < b.target_id.data ∨
       (a.target_id = b.target_id ∧ a.measure_id < b.measure_id)))))

/-- C3 counterexample: the engine's output on a concrete project is
`[(joint,"0",0), (member,"A",3), (joint,"B",3)]` — sorted by
`(target_id, measure_id)` but strictly sorted by the composite
`(target_type, target_id, measure_id)` key under neither order of
target types. -/
theorem run_decision_sort_ignores_target_type_counterexample :
    ((Svc.run_decision cexProject cexRules {}).applied_measures.map
      (fun am => (am.target_type, am.target_id, am.measure_id)) =
     [(Svc.TargetType.joint, "0", 0), (Svc.TargetType.member, "A", 3),
      (Svc.TargetType.joint, "B", 3)]) ∧
    ¬ ((Svc.run_decision cexProject cexRules {}).applied_measures.Pairwise
        (amLTfull ttRankMemberFirst)) ∧
    ¬ ((Svc.run_decision cexProject cexRules {}).applied_measures.Pairwise
        (amLTfull ttRankJointFirst)) := by
  decide
